import Mathlib

/-!
Verification of the dungeon-DSL compiler (`src/compile_dungeon.py`).

The development is a shallow embedding of the compiler: the lexer,
recursive-descent parser, validator and code generator are translated into
executable Lean functions over explicit data types.  Python's dynamically
typed values are modelled by `PyVal`; Python exceptions become `Except`
results; the loops of the hand-written lexer and parser are expressed as
fuel-indexed recursions (the fuel is always instantiated with a bound large
enough that it is never exhausted on the inputs the Python code terminates
on).  Machine details that no theorem depends on (binary floating point,
JSON string escaping of non-ASCII characters) are modelled symbolically and
noted at the definition.
-/

namespace Dungeon

/-- Token kinds, mirroring the Python `TokenType` enum member for member. -/
inductive TokenType where
  | INIT | RULES | QUESTS | END_GAME | ON_GAME_START
  | WORLD | FURNITURE | MYTHICS | ITEMS | MONSTERS | USER | NPC
  | LET | CATCH | IF | THEN | AND | AT | IS | HAS | SHOW | WIN | LOSE | DIE
  | LEVEL_UP | MOVE | TALK | ATTACK | USE | SET | TOUCH | PLACE
  | CHECK_INVENTORY | TOWARDS | WITH | CAN | BE | PICKED | UP | BY | THE
  | GIVES | EXPERIENCE | HEALTH | DAMAGE | KILLABLE | HIT | RANDOM | ALL
  | TO | OF
  | IDENTIFIER | STRING | NUMBER | BOOLEAN | PERCENTAGE
  | EQUALS | COMMA | COLON | SEMICOLON | LPAREN | RPAREN
  | GT | LT | GTE | LTE | EQ | NE
  | NEWLINE | COMMENT | EOF
deriving DecidableEq, Repr

/-- A dynamically typed Python value, as carried in `Token.value` and in the
loosely typed AST fields.  Python floats are represented symbolically by
their decimal digits (integer part and fractional digit list) as read by the
lexer; no theorem in this development depends on float arithmetic or float
formatting. -/
inductive PyVal where
  | vNone
  | vStr (s : String)
  | vInt (n : Int)
  | vFloat (intPart : Nat) (frac : List Nat)
  | vBool (b : Bool)
deriving DecidableEq, Repr

/-- A token, mirroring the Python `Token` dataclass. -/
structure Token where
  type : TokenType
  value : PyVal
  line : Nat
  column : Nat
deriving DecidableEq, Repr

/-- Errors of the compiler.  `syntaxErr` models Python `SyntaxError` with its
source position (the message text is not modelled); `typeErr` models any
other runtime exception (e.g. the `TypeError` raised by `read_string` when
the input ends right after a backslash); `fuelErr` is the out-of-fuel marker
of the fuel-indexed recursions and is unreachable for the fuel bounds used
by the top-level entry points. -/
inductive CompileErr where
  | syntaxErr (line column : Nat)
  | typeErr
  | fuelErr
deriving DecidableEq, Repr

/-- The keyword table of the lexer (Python `Lexer.keywords`), as a lookup
function on the lowercased identifier. -/
def keywordType (s : String) : Option TokenType :=
  match s with
  | "init" => some .INIT
  | "rules" => some .RULES
  | "quests" => some .QUESTS
  | "end_game" => some .END_GAME
  | "on_game_start" => some .ON_GAME_START
  | "world" => some .WORLD
  | "furniture" => some .FURNITURE
  | "mytics" => some .MYTHICS
  | "items" => some .ITEMS
  | "monsters" => some .MONSTERS
  | "user" => some .USER
  | "npc" => some .NPC
  | "let" => some .LET
  | "catch" => some .CATCH
  | "if" => some .IF
  | "then" => some .THEN
  | "and" => some .AND
  | "at" => some .AT
  | "is" => some .IS
  | "has" => some .HAS
  | "show" => some .SHOW
  | "win" => some .WIN
  | "lose" => some .LOSE
  | "die" => some .DIE
  | "level" => some .LEVEL_UP
  | "move" => some .MOVE
  | "talk" => some .TALK
  | "attack" => some .ATTACK
  | "use" => some .USE
  | "set" => some .SET
  | "touch" => some .TOUCH
  | "place" => some .PLACE
  | "check_inventory" => some .CHECK_INVENTORY
  | "towards" => some .TOWARDS
  | "with" => some .WITH
  | "can" => some .CAN
  | "be" => some .BE
  | "picked" => some .PICKED
  | "up" => some .UP
  | "by" => some .BY
  | "the" => some .THE
  | "gives" => some .GIVES
  | "experience" => some .EXPERIENCE
  | "health" => some .HEALTH
  | "damage" => some .DAMAGE
  | "killable" => some .KILLABLE
  | "hit" => some .HIT
  | "random" => some .RANDOM
  | "all" => some .ALL
  | "to" => some .TO
  | "of" => some .OF
  | "true" => some .BOOLEAN
  | "false" => some .BOOLEAN
  | _ => none

/-- ASCII lowercasing of one character (Python `str.lower`; the keyword
table is all-ASCII, so this agrees with Python on every lookup). -/
def lowerChar (c : Char) : Char :=
  if 'A' ≤ c ∧ c ≤ 'Z' then Char.ofNat (c.toNat + 32) else c

/-- ASCII `str.lower` on a string. -/
def strLower (s : String) : String :=
  String.mk (s.data.map lowerChar)

/-- `str.startswith`, on the character lists. -/
def strStartsWith (s pre : String) : Bool :=
  pre.data.isPrefixOf s.data

/-- The whitespace stripped by Python `str.strip`. -/
def isPySpace (c : Char) : Bool :=
  c = ' ' || c = '\t' || c = '\n' || c = '\r' || c = '\x0b' || c = '\x0c'

/-- Python `str.strip()`. -/
def strStrip (s : String) : String :=
  String.mk (((s.data.dropWhile isPySpace).reverse.dropWhile isPySpace).reverse)

/-- `Lexer.advance` on one character: newline bumps the line and resets the
column to 1, any other character bumps the column. -/
def adv1 (c : Char) (line col : Nat) : Nat × Nat :=
  if c = '\n' then (line + 1, 1) else (line, col + 1)

/-- Whitespace skipped by `Lexer.skip_whitespace` (space, tab, CR). -/
def isWs (c : Char) : Bool :=
  c = ' ' || c = '\t' || c = '\r'

/-- `Lexer.skip_whitespace`: consume leading whitespace, tracking position. -/
def skipWs : List Char → Nat → Nat → List Char × Nat × Nat
  | [], line, col => ([], line, col)
  | c :: cs, line, col =>
    if isWs c then skipWs cs line (col + 1) else (c :: cs, line, col)

/-- The escape decoding of `Lexer.read_string`: `\n`, `\t`, `\\`, `\"`
decode to the named character, any other `\c` decodes to `c` itself. -/
def escapeMap (d : Char) : Char :=
  if d = 'n' then '\n'
  else if d = 't' then '\t'
  else if d = '\\' then '\\'
  else if d = '"' then '"'
  else d

/-- The body of `Lexer.read_string`, entered after the opening quote has been
consumed.  Returns the decoded character list, the remaining input and the
position after the (optional) closing quote.  An unterminated string simply
runs to end of input; a backslash as the very last character raises the
`TypeError` of `value += None` in the Python code, modelled as `typeErr`. -/
def readStringLoop (q : Char) : List Char → Nat → Nat →
    Except CompileErr (List Char × List Char × Nat × Nat)
  | [], line, col => .ok ([], [], line, col)
  | c :: cs, line, col =>
    if c = q then
      -- closing quote: consumed, not part of the value
      .ok ([], cs, line, col + 1)
    else if c = '\\' then
      match cs with
      | [] => .error .typeErr
      | d :: ds =>
        let (l₁, c₁) := adv1 c line col
        let (l₂, c₂) := adv1 d l₁ c₁
        match readStringLoop q ds l₂ c₂ with
        | .ok (v, rest, l, co) => .ok (escapeMap d :: v, rest, l, co)
        | .error e => .error e
    else
      let (l₁, c₁) := adv1 c line col
      match readStringLoop q cs l₁ c₁ with
      | .ok (v, rest, l, co) => .ok (c :: v, rest, l, co)
      | .error e => .error e

/-- The scan of `read_string` reaches end of input: the matching quote
never occurs unescaped in the remainder, and the remainder does not end in
a dangling backslash escape.  This is exactly the "string literal never
closed by the matching quote before end of input" condition, following the
same escape skipping as `read_string` itself. -/
def runsToEof (q : Char) : List Char → Bool
  | [] => true
  | c :: cs =>
    if c = q then false
    else if c = '\\' then
      match cs with
      | [] => false
      | _ :: ds => runsToEof q ds
    else runsToEof q cs

/-- The characters `read_string` accumulates when it scans to end of input:
every escape sequence is decoded, every other character kept verbatim. -/
def decodeToEof : List Char → List Char
  | [] => []
  | c :: cs =>
    if c = '\\' then
      match cs with
      | [] => []
      | d :: ds => escapeMap d :: decodeToEof ds
    else c :: decodeToEof cs

/-- `Lexer.read_number`: consume digits with at most one decimal point.
Returns the consumed characters, the rest, and the is-float flag. -/
def readNumberLoop : List Char → Bool → List Char × List Char × Bool
  | [], isF => ([], [], isF)
  | c :: cs, isF =>
    if c.isDigit then
      let (acc, rest, f) := readNumberLoop cs isF
      (c :: acc, rest, f)
    else if c = '.' then
      if isF then ([], c :: cs, isF)
      else
        let (acc, rest, f) := readNumberLoop cs true
        (c :: acc, rest, f)
    else ([], c :: cs, isF)

/-- Digit value of a character (only applied to decimal digits). -/
def digitVal (c : Char) : Nat := c.toNat - 48

/-- Natural number denoted by a list of decimal digit characters. -/
def digitsToNat (cs : List Char) : Nat :=
  cs.foldl (fun acc c => acc * 10 + digitVal c) 0

/-- The numeric value of `read_number`'s output: an integer, or a symbolic
decimal float (integer part and fractional digits). -/
def numValOf (cs : List Char) (isF : Bool) : PyVal :=
  if isF then
    let ip := cs.takeWhile (fun c => c ≠ '.')
    let fr := (cs.dropWhile (fun c => c ≠ '.')).drop 1
    .vFloat (digitsToNat ip) (fr.map digitVal)
  else .vInt (digitsToNat cs)

/-- `Lexer.read_identifier`: alphanumerics, underscore and hyphen (the
Python code uses the Unicode-aware `str.isalnum`; ASCII alphanumerics are
modelled, which agrees on all inputs considered here). -/
def readIdentLoop : List Char → List Char × List Char
  | [] => ([], [])
  | c :: cs =>
    if c.isAlphanum || c = '_' || c = '-' then
      let (acc, rest) := readIdentLoop cs
      (c :: acc, rest)
    else ([], c :: cs)

/-- `Lexer.read_comment`: consume to (but not including) the newline. -/
def readCommentLoop : List Char → Nat → List Char × Nat
  | [], col => ([], col)
  | c :: cs, col =>
    if c = '\n' then (c :: cs, col) else readCommentLoop cs (col + 1)

/-- The main loop of `Lexer.tokenize`.  Produces the tokens from the current
position on, including the final `EOF` token.  Each iteration consumes at
least one character, so fuel `length + 1` is never exhausted. -/
def lexLoop : Nat → List Char → Nat → Nat → Except CompileErr (List Token)
  | 0, _, _, _ => .error .fuelErr
  | fuel + 1, cs₀, line₀, col₀ =>
    let (cs, line, col) := skipWs cs₀ line₀ col₀
    match cs with
    | [] => .ok [⟨.EOF, .vNone, line, col⟩]
    | c :: rest =>
      if c = '#' then
        let (rest', col') := readCommentLoop rest (col + 1)
        lexLoop fuel rest' line col'
      else if c = '\n' then
        lexLoop fuel rest (line + 1) 1
      else if c = '"' || c = '\'' then
        match readStringLoop c rest line (col + 1) with
        | .error e => .error e
        | .ok (v, rest', l', c') =>
          match lexLoop fuel rest' l' c' with
          | .error e => .error e
          | .ok toks => .ok (⟨.STRING, .vStr (String.mk v), line, col⟩ :: toks)
      else if c.isDigit then
        let (numCs, rest', isF) := readNumberLoop (c :: rest) false
        let col' := col + numCs.length
        let v := numValOf numCs isF
        match rest' with
        | '%' :: rest'' =>
          match lexLoop fuel rest'' line (col' + 1) with
          | .error e => .error e
          | .ok toks => .ok (⟨.PERCENTAGE, v, line, col⟩ :: toks)
        | _ =>
          match lexLoop fuel rest' line col' with
          | .error e => .error e
          | .ok toks => .ok (⟨.NUMBER, v, line, col⟩ :: toks)
      else if c = '=' then
        match rest with
        | '=' :: rest' =>
          match lexLoop fuel rest' line (col + 2) with
          | .error e => .error e
          | .ok toks => .ok (⟨.EQ, .vStr "==", line, col⟩ :: toks)
        | _ =>
          match lexLoop fuel rest line (col + 1) with
          | .error e => .error e
          | .ok toks => .ok (⟨.EQUALS, .vStr "=", line, col⟩ :: toks)
      else if c = '>' then
        match rest with
        | '=' :: rest' =>
          match lexLoop fuel rest' line (col + 2) with
          | .error e => .error e
          | .ok toks => .ok (⟨.GTE, .vStr ">=", line, col⟩ :: toks)
        | _ =>
          match lexLoop fuel rest line (col + 1) with
          | .error e => .error e
          | .ok toks => .ok (⟨.GT, .vStr ">", line, col⟩ :: toks)
      else if c = '<' then
        match rest with
        | '=' :: rest' =>
          match lexLoop fuel rest' line (col + 2) with
          | .error e => .error e
          | .ok toks => .ok (⟨.LTE, .vStr "<=", line, col⟩ :: toks)
        | _ =>
          match lexLoop fuel rest line (col + 1) with
          | .error e => .error e
          | .ok toks => .ok (⟨.LT, .vStr "<", line, col⟩ :: toks)
      else if c = '!' then
        match rest with
        | '=' :: rest' =>
          match lexLoop fuel rest' line (col + 2) with
          | .error e => .error e
          | .ok toks => .ok (⟨.NE, .vStr "!=", line, col⟩ :: toks)
        | _ => .error (.syntaxErr line col)
      else if c = ',' then
        match lexLoop fuel rest line (col + 1) with
        | .error e => .error e
        | .ok toks => .ok (⟨.COMMA, .vStr ",", line, col⟩ :: toks)
      else if c = ':' then
        match lexLoop fuel rest line (col + 1) with
        | .error e => .error e
        | .ok toks => .ok (⟨.COLON, .vStr ":", line, col⟩ :: toks)
      else if c = ';' then
        match lexLoop fuel rest line (col + 1) with
        | .error e => .error e
        | .ok toks => .ok (⟨.SEMICOLON, .vStr ";", line, col⟩ :: toks)
      else if c = '(' then
        match lexLoop fuel rest line (col + 1) with
        | .error e => .error e
        | .ok toks => .ok (⟨.LPAREN, .vStr "(", line, col⟩ :: toks)
      else if c = ')' then
        match lexLoop fuel rest line (col + 1) with
        | .error e => .error e
        | .ok toks => .ok (⟨.RPAREN, .vStr ")", line, col⟩ :: toks)
      else if c.isAlpha || c = '_' then
        let (identCs, rest₂) := readIdentLoop (c :: rest)
        let col₂ := col + identCs.length
        -- multi-word keyword folding: `level` followed by exactly " up".
        -- The Python code advances `self.pos` by 3 here without touching
        -- `self.column`, so the column is deliberately left at `col₂`.
        let folded := identCs = ['l', 'e', 'v', 'e', 'l'] && rest₂.take 3 = [' ', 'u', 'p']
        let ident := if folded then "level up" else String.mk identCs
        let rest₃ := if folded then rest₂.drop 3 else rest₂
        let tokType := (keywordType (strLower ident)).getD .IDENTIFIER
        let tok : Token :=
          if tokType = .BOOLEAN then ⟨.BOOLEAN, .vBool (strLower ident = "true"), line, col⟩
          else ⟨tokType, .vStr ident, line, col⟩
        match lexLoop fuel rest₃ line col₂ with
        | .error e => .error e
        | .ok toks => .ok (tok :: toks)
      else .error (.syntaxErr line col)

/-- `Lexer.tokenize`: lex a whole source text (1-based line and column). -/
def tokenize (text : String) : Except CompileErr (List Token) :=
  lexLoop (text.length + 1) text.data 1 1

/-! ## AST nodes (the Python dataclasses, field for field) -/

/-- `Placement` dataclass: `type` is one of `"all"`, `"coordinate"`,
`"range"`, `"random"`. -/
structure Placement where
  type : String
  coord1 : Option (Int × Int) := none
  coord2 : Option (Int × Int) := none
  percentage : Option PyVal := none
deriving DecidableEq, Repr

/-- `WorldDecl` dataclass. -/
structure WorldDecl where
  width : Int := 100
  height : Int := 100
deriving DecidableEq, Repr

/-- `FurnitureItem` dataclass. -/
structure FurnitureItem where
  name : String
  placement : Placement
deriving DecidableEq, Repr

/-- `MythicItem` dataclass. -/
structure MythicItem where
  unique_name : String
  placement : Option Placement := none
  can_pickup : Bool := false
  catch_message : Option String := none
deriving DecidableEq, Repr

/-- `ItemDecl` dataclass. -/
structure ItemDecl where
  item_type : String
  unique_name : String
  placement : Option Placement := none
  can_pickup : Bool := false
  effect : Option String := none
  damage : Option Int := none
  catch_message : Option String := none
deriving DecidableEq, Repr

/-- `MonsterDecl` dataclass. -/
structure MonsterDecl where
  unique_name : String
  monster_type : String := "monster-static"
  placement : Option Placement := none
  health : Option Int := none
  killable_hits : Option Int := none
  experience : Option Int := none
deriving DecidableEq, Repr

/-- `UserDecl` dataclass. -/
structure UserDecl where
  unique_name : String
  context : Option String := none
  position : Option (Int × Int) := none
deriving DecidableEq, Repr

/-- `NPCCondition` dataclass.  The Python declaration annotates the fields as
`condition_type`, `then_action`, `operator`, `value`, `action_value` in this
positional order; the annotations are not enforced at runtime, so every
field is modelled as a dynamic `PyVal`. -/
structure NPCCondition where
  condition_type : PyVal
  then_action : PyVal
  operator : PyVal := .vNone
  value : PyVal := .vNone
  action_value : PyVal := .vNone
deriving DecidableEq, Repr

/-- `NPCDecl` dataclass. -/
structure NPCDecl where
  npc_type : String
  unique_name : String
  placement : Option Placement := none
  context : Option String := none
  response : Option String := none
  state_machine : Option String := none
  emoji : Option String := none
  agenda : Option String := none
  conditions : List NPCCondition := []
  catch_message : Option String := none
deriving DecidableEq, Repr

/-- `InitSection` dataclass. -/
structure InitSection where
  world : Option WorldDecl := none
  furniture : List FurnitureItem := []
  mythics : List MythicItem := []
  items : List ItemDecl := []
  monsters : List MonsterDecl := []
  user : Option UserDecl := none
  npcs : List NPCDecl := []
  llm_endpoint : Option String := none
  llm_token : Option String := none
deriving DecidableEq, Repr

/-- `VariableDecl` dataclass. -/
structure VariableDecl where
  name : String
  value : PyVal
deriving DecidableEq, Repr

/-- `Condition` dataclass (rule/quest/end-game conditions). -/
structure Condition where
  type : String
  entity : String
  operator : Option String := none
  value : PyVal := .vNone
  position : Option (Int × Int) := none
deriving DecidableEq, Repr

/-- `Action` dataclass. -/
structure Action where
  type : String
  command : Option String := none
  target : Option String := none
  value : PyVal := .vNone
deriving DecidableEq, Repr

/-- `Rule` dataclass. -/
structure Rule where
  conditions : List Condition := []
  action : Action
deriving DecidableEq, Repr

/-- `RulesSection` dataclass. -/
structure RulesSection where
  rules : List Rule := []
deriving DecidableEq, Repr

/-- `Quest` dataclass. -/
structure Quest where
  name : Option String := none
  conditions : List Condition := []
  action : Action
deriving DecidableEq, Repr

/-- `QuestsSection` dataclass. -/
structure QuestsSection where
  quests : List Quest := []
deriving DecidableEq, Repr

/-- `EndCondition` dataclass. -/
structure EndCondition where
  condition : Condition
  result : Option String := none
deriving DecidableEq, Repr

/-- `EndGameSection` dataclass. -/
structure EndGameSection where
  conditions : List EndCondition := []
  win_message : Option String := none
  lose_message : Option String := none
deriving DecidableEq, Repr

/-- `OnGameStartSection` dataclass. -/
structure OnGameStartSection where
  title : Option String := none
  text_lines : List String := []
  links : List (String × String) := []
deriving DecidableEq, Repr

/-- `Program` dataclass. -/
structure Program where
  «variables» : List VariableDecl := []
  init_section : Option InitSection := none
  rules_section : Option RulesSection := none
  quests_section : Option QuestsSection := none
  end_game_section : Option EndGameSection := none
  on_game_start_section : Option OnGameStartSection := none
deriving DecidableEq, Repr

/-! ## Parser

The Python `Parser` walks the token list through a `pos` cursor.  It is
modelled by functions that consume a `List Token` and return the rest.
`Parser.current_token` on an exhausted cursor returns the final token
(always `EOF`); this is modelled by `cur [] = eofTok` (the position carried
by `eofTok` can differ from Python's, which only affects the coordinates
inside unreachable error messages). -/

/-- Stand-in token returned past the end of the stream. -/
def eofTok : Token := ⟨.EOF, .vNone, 0, 0⟩

/-- `Parser.current_token`. -/
def cur : List Token → Token
  | [] => eofTok
  | t :: _ => t

/-- `Parser.advance`. -/
def adv : List Token → List Token
  | [] => []
  | _ :: ts => ts

/-- `Parser.peek_token`. -/
def peekT (ts : List Token) (off : Nat) : Token :=
  (ts.get? off).getD eofTok

/-- `Parser.expect` (the optional value check is never used by callers). -/
def expectT (tt : TokenType) (ts : List Token) :
    Except CompileErr (Token × List Token) :=
  let t := cur ts
  if t.type = tt then .ok (t, adv ts) else .error (.syntaxErr t.line t.column)

/-- The string payload of a token (identifiers and string literals always
carry `vStr`; other uses go through `PyVal` directly). -/
def tokStr (t : Token) : String :=
  match t.value with
  | .vStr s => s
  | _ => ""

/-- Python `int(...)` on a lexed numeric value (floats truncate towards
zero; lexed numbers are non-negative, so the integer part is the result). -/
def pyToInt (v : PyVal) : Int :=
  match v with
  | .vInt n => n
  | .vFloat ip _ => ip
  | .vBool b => if b then 1 else 0
  | _ => 0

/-- Python string truthiness on an optional string: `None` and `""` are
falsy. -/
def truthyStr : Option String → Option String
  | some "" => none
  | x => x

/-- `Parser.parse_value`. -/
def parseValue (ts : List Token) : Except CompileErr (PyVal × List Token) :=
  let t := cur ts
  if t.type = .NUMBER ∨ t.type = .STRING ∨ t.type = .BOOLEAN ∨
      t.type = .IDENTIFIER then
    .ok (t.value, adv ts)
  else .error (.syntaxErr t.line t.column)

/-- `Parser.parse_coordinate`. -/
def parseCoordinate (ts : List Token) :
    Except CompileErr ((Int × Int) × List Token) := do
  let (_, ts) ← expectT .LPAREN ts
  let (xt, ts) ← expectT .NUMBER ts
  let (_, ts) ← expectT .COMMA ts
  let (yt, ts) ← expectT .NUMBER ts
  let (_, ts) ← expectT .RPAREN ts
  .ok ((pyToInt xt.value, pyToInt yt.value), ts)

/-- `Parser.parse_placement`. -/
def parsePlacement (ts : List Token) :
    Except CompileErr (Placement × List Token) :=
  if (cur ts).type = .ALL then
    .ok ({ type := "all" }, adv ts)
  else if (cur ts).type = .RANDOM then do
    let ts := adv ts
    let (_, ts) ← expectT .LPAREN ts
    let (pt, ts) ← expectT .PERCENTAGE ts
    let (_, ts) ← expectT .RPAREN ts
    .ok ({ type := "random", percentage := some pt.value }, ts)
  else if (cur ts).type = .LPAREN then do
    let (c1, ts) ← parseCoordinate ts
    if (cur ts).type = .TO then do
      let ts := adv ts
      let (c2, ts) ← parseCoordinate ts
      .ok ({ type := "range", coord1 := some c1, coord2 := some c2 }, ts)
    else
      .ok ({ type := "coordinate", coord1 := some c1 }, ts)
  else .error (.syntaxErr (cur ts).line (cur ts).column)

/-- `Parser.parse_world`. -/
def parseWorld (ts : List Token) :
    Except CompileErr (WorldDecl × List Token) := do
  let (_, ts) ← expectT .WORLD ts
  let (_, ts) ← expectT .COLON ts
  if (cur ts).type = .NUMBER then do
    let (wt, ts) ← expectT .NUMBER ts
    let (_, ts) ← expectT .IDENTIFIER ts
    let (ht, ts) ← expectT .NUMBER ts
    let (_, ts) ← expectT .IDENTIFIER ts
    .ok (⟨pyToInt wt.value, pyToInt ht.value⟩, ts)
  else do
    let (_, ts) ← expectT .IDENTIFIER ts
    .ok (⟨100, 100⟩, ts)

/-- The loop of `Parser.parse_furniture`. -/
def parseFurnitureLoop : Nat → List Token →
    Except CompileErr (List FurnitureItem × List Token)
  | 0, _ => .error .fuelErr
  | fuel + 1, ts =>
    if (cur ts).type = .IDENTIFIER then
      if (peekT ts 1).type ≠ .AT then .ok ([], ts)
      else do
        let (nt, ts) ← expectT .IDENTIFIER ts
        let (_, ts) ← expectT .AT ts
        let (pl, ts) ← parsePlacement ts
        let (rest, ts) ← parseFurnitureLoop fuel ts
        .ok (⟨tokStr nt, pl⟩ :: rest, ts)
    else .ok ([], ts)

/-- `Parser.parse_furniture`. -/
def parseFurniture (ts : List Token) :
    Except CompileErr (List FurnitureItem × List Token) := do
  let (_, ts) ← expectT .FURNITURE ts
  let (_, ts) ← expectT .COLON ts
  parseFurnitureLoop (ts.length + 1) ts

/-- The property loop of `Parser.parse_mythics` (state: `unique_name`,
`placement`, `can_pickup`, `catch_message`). -/
def parseMythicProps : Nat → Option String → Option Placement → Bool →
    Option String → List Token →
    Except CompileErr ((Option String × Option Placement × Bool ×
      Option String) × List Token)
  | 0, _, _, _, _, _ => .error .fuelErr
  | fuel + 1, un, pl, cp, cm, ts =>
    let t := cur ts
    if t.type = .IDENTIFIER ∨ t.type = .STRING ∨ t.type = .AT ∨
        t.type = .CAN ∨ t.type = .CATCH ∨ t.type = .COMMA ∨
        t.type = .PLACE then
      if t.type = .COMMA then
        parseMythicProps fuel un pl cp cm (adv ts)
      else if t.type = .IDENTIFIER ∧ tokStr t = "unique_name" then do
        let ts := adv ts
        let (_, ts) ← expectT .EQUALS ts
        let (st, ts) ← expectT .STRING ts
        parseMythicProps fuel (some (tokStr st)) pl cp cm ts
      else if t.type = .PLACE then do
        let ts := adv ts
        let (_, ts) ← expectT .AT ts
        let (p, ts) ← parsePlacement ts
        parseMythicProps fuel un (some p) cp cm ts
      else if t.type = .CAN then do
        let ts := adv ts
        let (_, ts) ← expectT .BE ts
        let (_, ts) ← expectT .PICKED ts
        let (_, ts) ← expectT .UP ts
        let (_, ts) ← expectT .BY ts
        let (_, ts) ← expectT .THE ts
        let ts ← (if (cur ts).type = .USER then .ok (adv ts)
          else do
            let (_, ts) ← expectT .IDENTIFIER ts
            .ok ts)
        parseMythicProps fuel un pl true cm ts
      else if t.type = .CATCH then do
        let ts := adv ts
        let (st, ts) ← expectT .STRING ts
        parseMythicProps fuel un pl cp (some (tokStr st)) ts
      else .ok ((un, pl, cp, cm), ts)
    else .ok ((un, pl, cp, cm), ts)

/-- The declaration loop of `Parser.parse_mythics`.  A declaration whose
property list produced no (truthy) `unique_name` is dropped (`if
unique_name:` in the Python code). -/
def parseMythicsLoop : Nat → Nat → List Token →
    Except CompileErr (List MythicItem × List Token)
  | 0, _, _ => .error .fuelErr
  | fuel + 1, pf, ts =>
    if (cur ts).type = .IDENTIFIER then do
      let (_, ts) ← expectT .IDENTIFIER ts
      let (_, ts) ← expectT .COLON ts
      let ((un, pl, cp, cm), ts) ← parseMythicProps pf none none false none ts
      let (rest, ts) ← parseMythicsLoop fuel pf ts
      match truthyStr un with
      | some u => .ok (⟨u, pl, cp, cm⟩ :: rest, ts)
      | none => .ok (rest, ts)
    else .ok ([], ts)

/-- `Parser.parse_mythics`. -/
def parseMythics (ts : List Token) :
    Except CompileErr (List MythicItem × List Token) := do
  let (_, ts) ← expectT .MYTHICS ts
  let (_, ts) ← expectT .COLON ts
  parseMythicsLoop (ts.length + 1) (ts.length + 1) ts

/-- The effect sub-loop of `Parser.parse_items` (inside
`can be used to ...`): collects until a comma, `catch`, EOF or an
identifier; a string literal becomes the effect and stops the loop. -/
def parseEffectLoop : Nat → List String → List Token →
    Except CompileErr ((Option String × List String) × List Token)
  | 0, _, _ => .error .fuelErr
  | fuel + 1, parts, ts =>
    let t := cur ts
    if t.type ≠ .COMMA ∧ t.type ≠ .CATCH ∧ t.type ≠ .EOF ∧
        t.type ≠ .IDENTIFIER then
      if t.type = .STRING then
        .ok ((some (tokStr t), parts), adv ts)
      else
        parseEffectLoop fuel parts (adv ts)
    else .ok ((none, parts), ts)

/-- The property loop of `Parser.parse_items` (state: `unique_name`,
`placement`, `can_pickup`, `effect`, `damage`, `catch_message`). -/
def parseItemProps : Nat → Option String → Option Placement → Bool →
    Option String → Option Int → Option String → List Token →
    Except CompileErr ((Option String × Option Placement × Bool ×
      Option String × Option Int × Option String) × List Token)
  | 0, _, _, _, _, _, _, _ => .error .fuelErr
  | fuel + 1, un, pl, cp, eff, dmg, cm, ts =>
    let t := cur ts
    if t.type = .IDENTIFIER ∨ t.type = .STRING ∨ t.type = .AT ∨
        t.type = .CAN ∨ t.type = .CATCH ∨ t.type = .DAMAGE ∨
        t.type = .COMMA ∨ t.type = .PLACE then
      if t.type = .COMMA then
        parseItemProps fuel un pl cp eff dmg cm (adv ts)
      else if t.type = .IDENTIFIER ∧ tokStr t = "unique_name" then do
        let ts := adv ts
        let (_, ts) ← expectT .EQUALS ts
        let (st, ts) ← expectT .STRING ts
        parseItemProps fuel (some (tokStr st)) pl cp eff dmg cm ts
      else if t.type = .PLACE then do
        let ts := adv ts
        let (_, ts) ← expectT .AT ts
        let (p, ts) ← parsePlacement ts
        parseItemProps fuel un (some p) cp eff dmg cm ts
      else if t.type = .CAN then do
        let ts := adv ts
        let (_, ts) ← expectT .BE ts
        if (cur ts).type = .USE then do
          let ts := adv ts
          let (_, ts) ← expectT .TO ts
          let ((eff', _parts), ts) ← parseEffectLoop fuel [] ts
          -- `if not effect: effect = ' '.join(effect_parts)`; the parts
          -- list is unreachable (the loop guard excludes identifiers), so
          -- the join is always over the empty list
          let effFinal :=
            match eff' with
            | some e => if e = "" then some (String.intercalate " " _parts)
                        else some e
            | none => some (String.intercalate " " _parts)
          parseItemProps fuel un pl cp effFinal dmg cm ts
        else if (cur ts).type = .PICKED then do
          let (_, ts) ← expectT .PICKED ts
          let (_, ts) ← expectT .UP ts
          let (_, ts) ← expectT .BY ts
          let (_, ts) ← expectT .THE ts
          let ts ← (if (cur ts).type = .USER then .ok (adv ts)
            else do
              let (_, ts) ← expectT .IDENTIFIER ts
              .ok ts)
          parseItemProps fuel un pl true eff dmg cm ts
        else
          -- neither `use` nor `picked`: the Python branch falls through
          -- without consuming further tokens
          parseItemProps fuel un pl cp eff dmg cm ts
      else if t.type = .DAMAGE then do
        let ts := adv ts
        let (nt, ts) ← expectT .NUMBER ts
        parseItemProps fuel un pl cp eff (some (pyToInt nt.value)) cm ts
      else if t.type = .CATCH then do
        let ts := adv ts
        let (st, ts) ← expectT .STRING ts
        parseItemProps fuel un pl cp eff dmg (some (tokStr st)) ts
      else .ok ((un, pl, cp, eff, dmg, cm), ts)
    else .ok ((un, pl, cp, eff, dmg, cm), ts)

/-- The declaration loop of `Parser.parse_items`. -/
def parseItemsLoop : Nat → Nat → List Token →
    Except CompileErr (List ItemDecl × List Token)
  | 0, _, _ => .error .fuelErr
  | fuel + 1, pf, ts =>
    if (cur ts).type = .IDENTIFIER then do
      let (tt, ts) ← expectT .IDENTIFIER ts
      let (_, ts) ← expectT .COLON ts
      let ((un, pl, cp, eff, dmg, cm), ts) ←
        parseItemProps pf none none false none none none ts
      let (rest, ts) ← parseItemsLoop fuel pf ts
      match truthyStr un with
      | some u => .ok (⟨tokStr tt, u, pl, cp, eff, dmg, cm⟩ :: rest, ts)
      | none => .ok (rest, ts)
    else .ok ([], ts)

/-- `Parser.parse_items`. -/
def parseItems (ts : List Token) :
    Except CompileErr (List ItemDecl × List Token) := do
  let (_, ts) ← expectT .ITEMS ts
  let (_, ts) ← expectT .COLON ts
  parseItemsLoop (ts.length + 1) (ts.length + 1) ts

/-- The property loop of `Parser.parse_monsters`. -/
def parseMonsterProps : Nat → Option String → Option Placement →
    Option Int → Option Int → Option Int → List Token →
    Except CompileErr ((Option String × Option Placement × Option Int ×
      Option Int × Option Int) × List Token)
  | 0, _, _, _, _, _, _ => .error .fuelErr
  | fuel + 1, un, pl, hp, kh, xp, ts =>
    let t := cur ts
    if t.type = .IDENTIFIER ∨ t.type = .STRING ∨ t.type = .AT ∨
        t.type = .HEALTH ∨ t.type = .KILLABLE ∨ t.type = .GIVES ∨
        t.type = .COMMA ∨ t.type = .PLACE then
      if t.type = .COMMA then
        parseMonsterProps fuel un pl hp kh xp (adv ts)
      else if t.type = .IDENTIFIER ∧ tokStr t = "unique_name" then do
        let ts := adv ts
        let (_, ts) ← expectT .EQUALS ts
        let (st, ts) ← expectT .STRING ts
        parseMonsterProps fuel (some (tokStr st)) pl hp kh xp ts
      else if t.type = .PLACE then do
        let ts := adv ts
        let (_, ts) ← expectT .AT ts
        let (p, ts) ← parsePlacement ts
        parseMonsterProps fuel un (some p) hp kh xp ts
      else if t.type = .HEALTH then do
        let ts := adv ts
        let (nt, ts) ← expectT .NUMBER ts
        parseMonsterProps fuel un pl (some (pyToInt nt.value)) kh xp ts
      else if t.type = .KILLABLE then do
        let ts := adv ts
        let (nt, ts) ← expectT .NUMBER ts
        let (_, ts) ← expectT .HIT ts
        parseMonsterProps fuel un pl hp (some (pyToInt nt.value)) xp ts
      else if t.type = .GIVES then do
        let ts := adv ts
        let (nt, ts) ← expectT .NUMBER ts
        let (_, ts) ← expectT .EXPERIENCE ts
        parseMonsterProps fuel un pl hp kh (some (pyToInt nt.value)) ts
      else .ok ((un, pl, hp, kh, xp), ts)
    else .ok ((un, pl, hp, kh, xp), ts)

/-- The declaration loop of `Parser.parse_monsters` (the head identifier
must be one of the three monster types). -/
def parseMonstersLoop : Nat → Nat → List Token →
    Except CompileErr (List MonsterDecl × List Token)
  | 0, _, _ => .error .fuelErr
  | fuel + 1, pf, ts =>
    if (cur ts).type = .IDENTIFIER then do
      let (tt, ts) ← expectT .IDENTIFIER ts
      let mty := tokStr tt
      if mty ≠ "monster-static" ∧ mty ≠ "monster-dynamic" ∧
          mty ≠ "monster-boss" then
        .error (.syntaxErr tt.line tt.column)
      else do
        let (_, ts) ← expectT .COLON ts
        let ((un, pl, hp, kh, xp), ts) ←
          parseMonsterProps pf none none none none none ts
        let (rest, ts) ← parseMonstersLoop fuel pf ts
        match truthyStr un with
        | some u => .ok (⟨u, mty, pl, hp, kh, xp⟩ :: rest, ts)
        | none => .ok (rest, ts)
    else .ok ([], ts)

/-- `Parser.parse_monsters`. -/
def parseMonsters (ts : List Token) :
    Except CompileErr (List MonsterDecl × List Token) := do
  let (_, ts) ← expectT .MONSTERS ts
  let (_, ts) ← expectT .COLON ts
  parseMonstersLoop (ts.length + 1) (ts.length + 1) ts

/-- The property loop of `Parser.parse_user`. -/
def parseUserProps : Nat → Option String → Option String →
    Option (Int × Int) → List Token →
    Except CompileErr ((Option String × Option String ×
      Option (Int × Int)) × List Token)
  | 0, _, _, _, _ => .error .fuelErr
  | fuel + 1, un, ctx, pos, ts =>
    let t := cur ts
    if t.type = .IDENTIFIER ∨ t.type = .STRING ∨ t.type = .AT ∨
        t.type = .COMMA then
      if t.type = .COMMA then
        parseUserProps fuel un ctx pos (adv ts)
      else if t.type = .IDENTIFIER ∧ tokStr t = "unique_name" then do
        let ts := adv ts
        let (_, ts) ← expectT .EQUALS ts
        let (st, ts) ← expectT .STRING ts
        parseUserProps fuel (some (tokStr st)) ctx pos ts
      else if t.type = .IDENTIFIER ∧ tokStr t = "context" then do
        let ts := adv ts
        let (st, ts) ← expectT .STRING ts
        parseUserProps fuel un (some (tokStr st)) pos ts
      else if t.type = .AT then do
        let ts := adv ts
        let (c, ts) ← parseCoordinate ts
        parseUserProps fuel un ctx (some c) ts
      else .ok ((un, ctx, pos), ts)
    else .ok ((un, ctx, pos), ts)

/-- `Parser.parse_user` (`unique_name or "player"`: `None` and the empty
string fall back to `"player"`). -/
def parseUser (ts : List Token) :
    Except CompileErr (UserDecl × List Token) := do
  let (_, ts) ← expectT .USER ts
  let (_, ts) ← expectT .COLON ts
  let ((un, ctx, pos), ts) ← parseUserProps (ts.length + 1) none none none ts
  let name := match truthyStr un with
    | some u => u
    | none => "player"
  .ok (⟨name, ctx, pos⟩, ts)

/-- The loop of `Parser.parse_llm_config` (updates the init section's
`llm_endpoint` / `llm_token`). -/
def parseLlmLoop : Nat → Option String → Option String → List Token →
    Except CompileErr ((Option String × Option String) × List Token)
  | 0, _, _, _ => .error .fuelErr
  | fuel + 1, ep, tk, ts =>
    let t := cur ts
    if t.type = .IDENTIFIER then
      if tokStr t = "endpoint" then do
        let ts := adv ts
        let (st, ts) ← expectT .STRING ts
        parseLlmLoop fuel (some (tokStr st)) tk ts
      else if tokStr t = "token" then do
        let ts := adv ts
        let (st, ts) ← expectT .STRING ts
        parseLlmLoop fuel ep (some (tokStr st)) ts
      else .ok ((ep, tk), ts)
    else .ok ((ep, tk), ts)

/-- `Parser.parse_llm_config`. -/
def parseLlmConfig (ts : List Token) :
    Except CompileErr ((Option String × Option String) × List Token) := do
  let (_, ts) ← expectT .IDENTIFIER ts
  let (_, ts) ← expectT .COLON ts
  parseLlmLoop (ts.length + 1) none none ts

/-- `Parser.parse_npc_condition`.  Note the Python code expects an
`IDENTIFIER` where the comment says `'user'` (the keyword `user` lexes as
`USER` and is rejected), and constructs
`NPCCondition(condition_type, operator, value, action_type, action_value)`
positionally against the dataclass field order
`(condition_type, then_action, operator, value, action_value)`. -/
def parseNpcCondition (ts : List Token) :
    Except CompileErr (NPCCondition × List Token) := do
  let (_, ts) ← expectT .IF ts
  let (_, ts) ← expectT .IDENTIFIER ts
  let (_, ts) ← expectT .HAS ts
  let (ctTok, ts) ← expectT .IDENTIFIER ts
  let ct := tokStr ctTok
  if ct = "item" then do
    let (vt, ts) ← expectT .STRING ts
    let (_, ts) ← expectT .THEN ts
    let (act, ts) ← expectT .IDENTIFIER ts
    let (avt, ts) ← expectT .STRING ts
    .ok (⟨.vStr ct, .vNone, vt.value, act.value, avt.value⟩, ts)
  else do
    let (opv, ts) : PyVal × List Token :=
      if (cur ts).type = .GT then (.vStr ">", adv ts)
      else if (cur ts).type = .LT then (.vStr "<", adv ts)
      else if (cur ts).type = .GTE then (.vStr ">=", adv ts)
      else if (cur ts).type = .LTE then (.vStr "<=", adv ts)
      else if (cur ts).type = .EQ then (.vStr "==", adv ts)
      else (.vStr "==", ts)
    let (vt, ts) ← expectT .NUMBER ts
    let (_, ts) ← expectT .THEN ts
    let (act, ts) ← expectT .IDENTIFIER ts
    let (avt, ts) ← expectT .STRING ts
    .ok (⟨.vStr ct, opv, vt.value, act.value, avt.value⟩, ts)

/-- The property loop of `Parser.parse_npcs` (note: no comma skipping and
commas are not in the continuation set, unlike the other entities). -/
def parseNpcProps : Nat → Option String → Option Placement →
    Option String → Option String → Option String → Option String →
    Option String → List NPCCondition → Option String → List Token →
    Except CompileErr ((Option String × Option Placement × Option String ×
      Option String × Option String × Option String × Option String ×
      List NPCCondition × Option String) × List Token)
  | 0, _, _, _, _, _, _, _, _, _, _ => .error .fuelErr
  | fuel + 1, un, pl, ctx, resp, sm, em, ag, conds, cm, ts =>
    let t := cur ts
    if t.type = .IDENTIFIER ∨ t.type = .STRING ∨ t.type = .IF ∨
        t.type = .CATCH ∨ t.type = .PLACE ∨ t.type = .AT then
      if t.type = .IDENTIFIER ∧ tokStr t = "unique_name" then do
        let ts := adv ts
        let (_, ts) ← expectT .EQUALS ts
        let (st, ts) ← expectT .STRING ts
        parseNpcProps fuel (some (tokStr st)) pl ctx resp sm em ag conds cm ts
      else if t.type = .PLACE then do
        let ts := adv ts
        let (_, ts) ← expectT .AT ts
        let (p, ts) ← parsePlacement ts
        parseNpcProps fuel un (some p) ctx resp sm em ag conds cm ts
      else if t.type = .IDENTIFIER ∧ tokStr t = "context" then do
        let ts := adv ts
        let (st, ts) ← expectT .STRING ts
        parseNpcProps fuel un pl (some (tokStr st)) resp sm em ag conds cm ts
      else if t.type = .IDENTIFIER ∧ tokStr t = "response" then do
        let ts := adv ts
        let (st, ts) ← expectT .STRING ts
        parseNpcProps fuel un pl ctx (some (tokStr st)) sm em ag conds cm ts
      else if t.type = .IDENTIFIER ∧ tokStr t = "state_machine" then do
        let ts := adv ts
        let (_, ts) ← expectT .EQUALS ts
        let (st, ts) ← expectT .STRING ts
        parseNpcProps fuel un pl ctx resp (some (tokStr st)) em ag conds cm ts
      else if t.type = .IDENTIFIER ∧ tokStr t = "emoji" then do
        let ts := adv ts
        let (_, ts) ← expectT .EQUALS ts
        let (st, ts) ← expectT .STRING ts
        parseNpcProps fuel un pl ctx resp sm (some (tokStr st)) ag conds cm ts
      else if t.type = .IDENTIFIER ∧ tokStr t = "agenda" then do
        let ts := adv ts
        let (st, ts) ← expectT .STRING ts
        parseNpcProps fuel un pl ctx resp sm em (some (tokStr st)) conds cm ts
      else if t.type = .IF then do
        let (c, ts) ← parseNpcCondition ts
        parseNpcProps fuel un pl ctx resp sm em ag (conds ++ [c]) cm ts
      else if t.type = .CATCH then do
        let ts := adv ts
        let (st, ts) ← expectT .STRING ts
        parseNpcProps fuel un pl ctx resp sm em ag conds (some (tokStr st)) ts
      else .ok ((un, pl, ctx, resp, sm, em, ag, conds, cm), ts)
    else .ok ((un, pl, ctx, resp, sm, em, ag, conds, cm), ts)

/-- The declaration loop of `Parser.parse_npcs`. -/
def parseNpcsLoop : Nat → Nat → List Token →
    Except CompileErr (List NPCDecl × List Token)
  | 0, _, _ => .error .fuelErr
  | fuel + 1, pf, ts =>
    if (cur ts).type = .IDENTIFIER then do
      let (tt, ts) ← expectT .IDENTIFIER ts
      let (_, ts) ← expectT .COLON ts
      let ((un, pl, ctx, resp, sm, em, ag, conds, cm), ts) ←
        parseNpcProps pf none none none none none none none [] none ts
      let (rest, ts) ← parseNpcsLoop fuel pf ts
      match truthyStr un with
      | some u => .ok (⟨tokStr tt, u, pl, ctx, resp, sm, em, ag, conds, cm⟩ :: rest, ts)
      | none => .ok (rest, ts)
    else .ok ([], ts)

/-- `Parser.parse_npcs`. -/
def parseNpcs (ts : List Token) :
    Except CompileErr (List NPCDecl × List Token) := do
  let (_, ts) ← expectT .NPC ts
  let (_, ts) ← expectT .COLON ts
  parseNpcsLoop (ts.length + 1) (ts.length + 1) ts

/-- The section loop of `Parser.parse_init_section`. -/
def parseInitLoop : Nat → InitSection → List Token →
    Except CompileErr (InitSection × List Token)
  | 0, _, _ => .error .fuelErr
  | fuel + 1, init, ts =>
    let t := cur ts
    if t.type = .EOF then .ok (init, ts)
    else if t.type = .WORLD then do
      let (w, ts) ← parseWorld ts
      parseInitLoop fuel { init with world := some w } ts
    else if t.type = .IDENTIFIER ∧ tokStr t = "llm" then do
      let ((ep, tk), ts) ← parseLlmConfig ts
      -- `parse_llm_config` assigns the fields it saw; unseen fields keep
      -- their previous value
      let init := { init with
        llm_endpoint := ep.orElse (fun _ => init.llm_endpoint),
        llm_token := tk.orElse (fun _ => init.llm_token) }
      parseInitLoop fuel init ts
    else if t.type = .FURNITURE then do
      let (fs, ts) ← parseFurniture ts
      parseInitLoop fuel { init with furniture := init.furniture ++ fs } ts
    else if t.type = .MYTHICS then do
      let (ms, ts) ← parseMythics ts
      parseInitLoop fuel { init with mythics := init.mythics ++ ms } ts
    else if t.type = .ITEMS then do
      let (xs, ts) ← parseItems ts
      parseInitLoop fuel { init with items := init.items ++ xs } ts
    else if t.type = .MONSTERS then do
      let (ms, ts) ← parseMonsters ts
      parseInitLoop fuel { init with monsters := init.monsters ++ ms } ts
    else if t.type = .USER then do
      let (u, ts) ← parseUser ts
      parseInitLoop fuel { init with user := some u } ts
    else if t.type = .NPC then do
      let (ns, ts) ← parseNpcs ts
      parseInitLoop fuel { init with npcs := init.npcs ++ ns } ts
    else .ok (init, ts)

/-- `Parser.parse_init_section`. -/
def parseInitSection (ts : List Token) :
    Except CompileErr (InitSection × List Token) := do
  let (_, ts) ← expectT .INIT ts
  let (_, ts) ← expectT .COLON ts
  parseInitLoop (ts.length + 1) {} ts

/-- `Parser.parse_condition`. -/
def parseCondition (ts : List Token) :
    Except CompileErr (Condition × List Token) := do
  let (entity, ts) ←
    (if (cur ts).type = .USER then .ok ("user", adv ts)
     else do
       let (et, ts) ← expectT .IDENTIFIER ts
       .ok (tokStr et, ts))
  let t := cur ts
  if t.type = .IDENTIFIER ∧ (tokStr t = "responded" ∨ tokStr t = "responds") then
    .ok (⟨"responded_to", entity, none, .vNone, none⟩, adv ts)
  else if t.type = .IS then do
    let ts := adv ts
    let (_, ts) ← expectT .AT ts
    let (pos, ts) ← parseCoordinate ts
    .ok (⟨"position", entity, none, .vNone, some pos⟩, ts)
  else if t.type = .HAS then do
    let ts := adv ts
    let t' := cur ts
    if t'.type = .IDENTIFIER ∧ (tokStr t' = "item" ∨ tokStr t' = "experience" ∨
        tokStr t' = "health") then do
      let (attrTok, ts) ← expectT .IDENTIFIER ts
      if tokStr attrTok = "item" then do
        let (vt, ts) ← expectT .STRING ts
        .ok (⟨"has", entity, none, .vStr (tokStr vt), none⟩, ts)
      else do
        let (op, ts) :=
          if (cur ts).type = .GT ∨ (cur ts).type = .LT ∨
              (cur ts).type = .GTE ∨ (cur ts).type = .LTE ∨
              (cur ts).type = .EQ ∨ (cur ts).type = .NE then
            (tokStr (cur ts), adv ts)
          else ("==", ts)
        let (vt, ts) ← expectT .NUMBER ts
        .ok (⟨"comparison", entity, some op, vt.value, none⟩, ts)
    else do
      let (v, ts) ← parseValue ts
      .ok (⟨"has", entity, none, v, none⟩, ts)
  else if t.type = .IDENTIFIER ∧ tokStr t = "talked" then do
    let ts := adv ts
    let (_, ts) ← expectT .TO ts
    let (nt, ts) ← expectT .IDENTIFIER ts
    .ok (⟨"talked_to", entity, none, .vStr (tokStr nt), none⟩, ts)
  else .error (.syntaxErr t.line t.column)

/-- `Parser.parse_action`. -/
def parseAction (ts : List Token) :
    Except CompileErr (Action × List Token) :=
  let t := cur ts
  if t.type = .IDENTIFIER ∧ strStartsWith (tokStr t) "talk-" then
    .ok (⟨"talk", none, none, .vStr (tokStr t)⟩, adv ts)
  else if t.type = .LEVEL_UP then
    .ok (⟨"level up", none, none, .vNone⟩, adv ts)
  else do
    let (ct, ts) ← expectT .IDENTIFIER ts
    .ok (⟨"command", some (tokStr ct), none, .vNone⟩, ts)

/-- The `and`-chain loop shared by rules, quests and end-game clauses. -/
def parseAndCondLoop : Nat → List Token →
    Except CompileErr (List Condition × List Token)
  | 0, _ => .error .fuelErr
  | fuel + 1, ts =>
    if (cur ts).type = .AND then do
      let ts := adv ts
      let (c, ts) ← parseCondition ts
      let (rest, ts) ← parseAndCondLoop fuel ts
      .ok (c :: rest, ts)
    else .ok ([], ts)

/-- `Parser.parse_rule`. -/
def parseRule (ts : List Token) :
    Except CompileErr (Rule × List Token) := do
  let (_, ts) ← expectT .IF ts
  let (c, ts) ← parseCondition ts
  let (cs, ts) ← parseAndCondLoop (ts.length + 1) ts
  let (_, ts) ← expectT .THEN ts
  let (a, ts) ← parseAction ts
  .ok (⟨c :: cs, a⟩, ts)

/-- The loop of `Parser.parse_rules_section`. -/
def parseRulesLoop : Nat → List Token →
    Except CompileErr (List Rule × List Token)
  | 0, _ => .error .fuelErr
  | fuel + 1, ts =>
    if (cur ts).type = .IF then do
      let (r, ts) ← parseRule ts
      let (rest, ts) ← parseRulesLoop fuel ts
      .ok (r :: rest, ts)
    else .ok ([], ts)

/-- `Parser.parse_rules_section`. -/
def parseRulesSection (ts : List Token) :
    Except CompileErr (RulesSection × List Token) := do
  let (_, ts) ← expectT .RULES ts
  let (_, ts) ← expectT .COLON ts
  let (rs, ts) ← parseRulesLoop (ts.length + 1) ts
  .ok (⟨rs⟩, ts)

/-- `Parser.parse_quest`. -/
def parseQuest (name : Option String) (ts : List Token) :
    Except CompileErr (Quest × List Token) := do
  let (_, ts) ← expectT .IF ts
  let (c, ts) ← parseCondition ts
  let (cs, ts) ← parseAndCondLoop (ts.length + 1) ts
  let (_, ts) ← expectT .THEN ts
  let (a, ts) ← parseAction ts
  .ok (⟨name, c :: cs, a⟩, ts)

/-- The loop of `Parser.parse_quests_section` (two-token lookahead for
named quests). -/
def parseQuestsLoop : Nat → List Token →
    Except CompileErr (List Quest × List Token)
  | 0, _ => .error .fuelErr
  | fuel + 1, ts =>
    if (cur ts).type = .IF ∨ (cur ts).type = .IDENTIFIER then do
      let (name, ts) :=
        if (cur ts).type = .IDENTIFIER ∧ (peekT ts 1).type = .COLON then
          (some (tokStr (cur ts)), adv (adv ts))
        else (none, ts)
      let (q, ts) ← parseQuest name ts
      let (rest, ts) ← parseQuestsLoop fuel ts
      .ok (q :: rest, ts)
    else .ok ([], ts)

/-- `Parser.parse_quests_section`. -/
def parseQuestsSection (ts : List Token) :
    Except CompileErr (QuestsSection × List Token) := do
  let (_, ts) ← expectT .QUESTS ts
  let (_, ts) ← expectT .COLON ts
  let (qs, ts) ← parseQuestsLoop (ts.length + 1) ts
  .ok (⟨qs⟩, ts)

/-- The loop of `Parser.parse_end_game_section`.  A later
`win_the_game:` / `lose_the_game:` assignment overwrites an earlier one. -/
def parseEndGameLoop : Nat → List Token →
    Except CompileErr ((List EndCondition × Option String × Option String) ×
      List Token)
  | 0, _ => .error .fuelErr
  | fuel + 1, ts =>
    let t := cur ts
    if t.type = .EOF then .ok (([], none, none), ts)
    else if t.type = .IF then do
      let ts := adv ts
      let (c, ts) ← parseCondition ts
      let (cs, ts) ← parseAndCondLoop (ts.length + 1) ts
      let (result, ts) ←
        (if (cur ts).type = .THEN then do
          let ts := adv ts
          if (cur ts).type = .WIN then do
            let ts := adv ts
            let (_, ts) ← expectT .THE ts
            let (_, ts) ← expectT .IDENTIFIER ts
            .ok ((some "win the game" : Option String), ts)
          else if (cur ts).type = .DIE then do
            let ts := adv ts
            let (_, ts) ← expectT .AND ts
            let (_, ts) ← expectT .LOSE ts
            let (_, ts) ← expectT .THE ts
            let (_, ts) ← expectT .IDENTIFIER ts
            .ok ((some "die and lose the game" : Option String), ts)
          else .ok ((none : Option String), ts)
        else .ok ((none : Option String), ts))
      let (rest, ts) ← parseEndGameLoop fuel ts
      let (restConds, restWin, restLose) := rest
      .ok (((c :: cs).map (fun cd => ⟨cd, result⟩) ++ restConds,
        restWin, restLose), ts)
    else if t.type = .IDENTIFIER ∧ tokStr t = "win_the_game" then do
      let ts := adv ts
      let (_, ts) ← expectT .COLON ts
      let (_, ts) ← expectT .SHOW ts
      let (st, ts) ← expectT .STRING ts
      let (rest, ts) ← parseEndGameLoop fuel ts
      let (restConds, restWin, restLose) := rest
      .ok ((restConds, restWin.orElse (fun _ => some (tokStr st)), restLose), ts)
    else if t.type = .IDENTIFIER ∧ tokStr t = "lose_the_game" then do
      let ts := adv ts
      let (_, ts) ← expectT .COLON ts
      let (_, ts) ← expectT .SHOW ts
      let (st, ts) ← expectT .STRING ts
      let (rest, ts) ← parseEndGameLoop fuel ts
      let (restConds, restWin, restLose) := rest
      .ok ((restConds, restWin, restLose.orElse (fun _ => some (tokStr st))), ts)
    else .ok (([], none, none), ts)

/-- `Parser.parse_end_game_section`. -/
def parseEndGameSection (ts : List Token) :
    Except CompileErr (EndGameSection × List Token) := do
  let (_, ts) ← expectT .END_GAME ts
  let (_, ts) ← expectT .COLON ts
  let ((cs, w, l), ts) ← parseEndGameLoop (ts.length + 1) ts
  .ok (⟨cs, w, l⟩, ts)

/-- Python `str(...)` on a lexed value, as used when collecting an unquoted
splash title (floats are shown from their decimal digits; Python's float
repr can differ on non-canonical digit lists, which no theorem relies on). -/
def pyStr (v : PyVal) : String :=
  match v with
  | .vNone => "None"
  | .vStr s => s
  | .vInt n => toString n
  | .vFloat ip fr => toString ip ++ "." ++ String.mk (fr.map (fun d => Char.ofNat (48 + d)))
  | .vBool b => if b then "True" else "False"

/-- Python truthiness of a lexed value. -/
def pyTruthy (v : PyVal) : Bool :=
  match v with
  | .vNone => false
  | .vStr s => s ≠ ""
  | .vInt n => n ≠ 0
  | .vFloat ip fr => ip ≠ 0 || fr.any (fun d => d ≠ 0)
  | .vBool b => b

/-- The unquoted-title collection loop of
`Parser.parse_on_game_start_section`. -/
def parseTitleLoop : Nat → List Token → (List String × List Token)
  | 0, ts => ([], ts)
  | fuel + 1, ts =>
    let t := cur ts
    if t.type ≠ .EOF ∧
        ¬(t.type = .IDENTIFIER ∧ strStartsWith (tokStr t) "display_") then
      let part :=
        if t.type = .IDENTIFIER ∨ t.type = .STRING then tokStr t
        else if t.type = .NUMBER ∨ t.type = .BOOLEAN then pyStr t.value
        else if pyTruthy t.value then pyStr t.value else ""
      let (rest, ts') := parseTitleLoop fuel (adv ts)
      (part :: rest, ts')
    else ([], ts)

/-- The loop of `Parser.parse_on_game_start_section`, threading the
accumulated state exactly like the Python locals: every `display_title:`
clause assigns `title` afresh (so a later clause wins even when its
unquoted text is empty and it assigns `None`), while `display_text:` and
`display_link:` append. -/
def parseOnGameStartLoop : Nat → Option String → List String →
    List (String × String) → List Token →
    Except CompileErr ((Option String × List String ×
      List (String × String)) × List Token)
  | 0, _, _, _, _ => .error .fuelErr
  | fuel + 1, title, texts, links, ts =>
    let t := cur ts
    if t.type = .EOF then .ok ((title, texts, links), ts)
    else if t.type = .IDENTIFIER ∧ tokStr t = "display_title" then do
      let ts := adv ts
      let (_, ts) ← expectT .COLON ts
      let (title', ts) ←
        (if (cur ts).type = .STRING then do
          let (st, ts) ← expectT .STRING ts
          .ok ((some (tokStr st) : Option String), ts)
        else
          let (parts, ts) := parseTitleLoop (ts.length + 1) ts
          let joined := strStrip (String.intercalate " " parts)
          .ok ((if joined = "" then none else some joined : Option String), ts))
      parseOnGameStartLoop fuel title' texts links ts
    else if t.type = .IDENTIFIER ∧ tokStr t = "display_text" then do
      let ts := adv ts
      let (_, ts) ← expectT .COLON ts
      let (st, ts) ← expectT .STRING ts
      parseOnGameStartLoop fuel title (texts ++ [tokStr st]) links ts
    else if t.type = .IDENTIFIER ∧ tokStr t = "display_link" then do
      let ts := adv ts
      let (_, ts) ← expectT .COLON ts
      let (at_, ts) ← expectT .STRING ts
      let (_, ts) ← expectT .COMMA ts
      let (ut, ts) ← expectT .STRING ts
      parseOnGameStartLoop fuel title texts (links ++ [(tokStr at_, tokStr ut)]) ts
    else .ok ((title, texts, links), ts)

/-- `Parser.parse_on_game_start_section`. -/
def parseOnGameStartSection (ts : List Token) :
    Except CompileErr (OnGameStartSection × List Token) := do
  let (_, ts) ← expectT .ON_GAME_START ts
  let (_, ts) ← expectT .COLON ts
  let ((title, texts, links), ts) ←
    parseOnGameStartLoop (ts.length + 1) none [] [] ts
  .ok (⟨title, texts, links⟩, ts)

/-- `Parser.parse_variable`. -/
def parseVariable (ts : List Token) :
    Except CompileErr (VariableDecl × List Token) := do
  let (_, ts) ← expectT .LET ts
  let (nt, ts) ← expectT .IDENTIFIER ts
  let (_, ts) ← expectT .EQUALS ts
  let (v, ts) ← parseValue ts
  .ok (⟨tokStr nt, v⟩, ts)

/-- The top-level dispatch loop of `Parser.parse`.  Later occurrences of a
section overwrite earlier ones (plain attribute assignment in Python). -/
def parseTopLoop : Nat → Program → List Token →
    Except CompileErr Program
  | 0, _, _ => .error .fuelErr
  | fuel + 1, prog, ts =>
    let t := cur ts
    if t.type = .EOF then .ok prog
    else if t.type = .LET then do
      let (v, ts) ← parseVariable ts
      parseTopLoop fuel { prog with «variables» := prog.«variables» ++ [v] } ts
    else if t.type = .INIT then do
      let (i, ts) ← parseInitSection ts
      parseTopLoop fuel { prog with init_section := some i } ts
    else if t.type = .RULES then do
      let (r, ts) ← parseRulesSection ts
      parseTopLoop fuel { prog with rules_section := some r } ts
    else if t.type = .QUESTS then do
      let (q, ts) ← parseQuestsSection ts
      parseTopLoop fuel { prog with quests_section := some q } ts
    else if t.type = .END_GAME then do
      let (e, ts) ← parseEndGameSection ts
      parseTopLoop fuel { prog with end_game_section := some e } ts
    else if t.type = .ON_GAME_START then do
      let (o, ts) ← parseOnGameStartSection ts
      parseTopLoop fuel { prog with on_game_start_section := some o } ts
    else .error (.syntaxErr t.line t.column)

/-- `Parser.parse`. -/
def parseProgram (ts : List Token) : Except CompileErr Program :=
  parseTopLoop (ts.length + 1) {} ts

/-! ## Validator -/

/-- The diagnostic message of `Validator.validate_uniqueness`. -/
def dupMsg (name : String) : String :=
  "Duplicate unique_name: " ++ name

/-- The names walked by `Validator.validate_uniqueness`, in source order:
mythics, items, monsters, NPCs, then the user (if present).  The Python
code checks each name against the set of previously seen names; the user is
checked last and not added, which produces the same diagnostics as adding
it. -/
def allNames (init : InitSection) : List String :=
  init.mythics.map (fun m => m.unique_name) ++
  init.items.map (fun i => i.unique_name) ++
  init.monsters.map (fun m => m.unique_name) ++
  init.npcs.map (fun n => n.unique_name) ++
  (match init.user with
   | some u => [u.unique_name]
   | none => [])

/-- The check-then-add loop of `Validator.validate_uniqueness`: a name
already in the seen set yields a diagnostic. -/
def uniqErrorsAux : List String → List String → List String
  | _, [] => []
  | seen, n :: ns =>
    (if n ∈ seen then [dupMsg n] else []) ++ uniqErrorsAux (n :: seen) ns

/-- `Validator.validate_uniqueness`. -/
def validateUniqueness (init : InitSection) : List String :=
  uniqErrorsAux [] (allNames init)

/-- The kind tag of an entry in the collision map.  The Python code builds
descriptor strings `f"mythic:{name}"`, `f"item:{name}"`, `f"monster:{name}"`,
`f"npc:{name}"`; the tag and name are kept separate here and joined by
`descrStr` when the diagnostic is rendered. -/
inductive EntKind where
  | mythic | item | monster | npc
deriving DecidableEq, Repr

/-- The f-string label of an entity kind. -/
def kindStr : EntKind → String
  | .mythic => "mythic"
  | .item => "item"
  | .monster => "monster"
  | .npc => "npc"

/-- An occupant of the collision map: kind tag plus `unique_name`. -/
structure PosEntry where
  kind : EntKind
  name : String
deriving DecidableEq, Repr

/-- The descriptor string of an occupant (`f"{kind}:{name}"`). -/
def descrStr (e : PosEntry) : String :=
  kindStr e.kind ++ ":" ++ e.name

/-- `not e.startswith('item:') and not e.startswith('mythic:')` on a
descriptor: since every descriptor begins with its own kind label and a
colon, this is decided by the kind tag. -/
def isNonPickup (e : PosEntry) : Bool :=
  e.kind ≠ .item ∧ e.kind ≠ .mythic

/-- One entity-list pass of the position-map construction in
`Validator.validate_collisions`: entities whose placement has type
`'coordinate'` contribute `(placement.coord1, descriptor)`.  The
dictionary key is `placement.coord1` verbatim (an `Option` pair, exactly
as in Python where a missing tuple would be the key `None`). -/
def entriesOf {α : Type} (pl : α → Option Placement) (k : EntKind)
    (nm : α → String) (l : List α) :
    List (Option (Int × Int) × PosEntry) :=
  l.filterMap (fun a =>
    match pl a with
    | some p => if p.type = "coordinate" then
        some (p.coord1, ⟨k, nm a⟩) else none
    | none => none)

/-- The `(pos, descriptor)` appends performed by
`Validator.validate_collisions`, in source order: mythics, items, monsters,
NPCs. -/
def coordEntries (init : InitSection) : List (Option (Int × Int) × PosEntry) :=
  entriesOf (fun m => m.placement) .mythic (fun m => m.unique_name)
    init.mythics ++
  entriesOf (fun i => i.placement) .item (fun i => i.unique_name)
    init.items ++
  entriesOf (fun m => m.placement) .monster (fun m => m.unique_name)
    init.monsters ++
  entriesOf (fun n => n.placement) .npc (fun n => n.unique_name)
    init.npcs

/-- First-occurrence deduplication (fuel-indexed; each step strictly
shrinks the list, so `length` fuel always suffices). -/
def dedupKeysAux {α : Type} [DecidableEq α] : Nat → List α → List α
  | 0, _ => []
  | _ + 1, [] => []
  | fuel + 1, a :: as => a :: dedupKeysAux fuel (as.filter (fun b => b ≠ a))

/-- First-occurrence deduplication, matching the key order of a Python
dict built by repeated insertion. -/
def dedupKeys {α : Type} [DecidableEq α] (l : List α) : List α :=
  dedupKeysAux l.length l

/-- The occupant list of one dictionary key (appends in scan order). -/
def occupantsAt (entries : List (Option (Int × Int) × PosEntry))
    (pos : Option (Int × Int)) : List PosEntry :=
  (entries.filter (fun e => e.1 = pos)).map (fun e => e.2)

/-- Python `f"{pos}"` on an optional coordinate pair. -/
def posStr : Option (Int × Int) → String
  | some (x, y) => "(" ++ toString x ++ ", " ++ toString y ++ ")"
  | none => "None"

/-- The text of a collision diagnostic. -/
def collisionMsg (pos : Option (Int × Int)) (entities : List PosEntry) : String :=
  "Collision at " ++ posStr pos ++ ": " ++
    String.intercalate ", " (entities.map descrStr)

/-- The keys for which `Validator.validate_collisions` reports a collision:
more than one occupant, not all of which are items or mythics. -/
def collisionCells (init : InitSection) : List (Option (Int × Int)) :=
  (dedupKeys ((coordEntries init).map (fun e => e.1))).filter (fun pos =>
    let ents := occupantsAt (coordEntries init) pos
    ents.length > 1 ∧ (ents.filter isNonPickup).length > 1)

/-- `Validator.validate_collisions`. -/
def validateCollisions (init : InitSection) : List String :=
  (collisionCells init).map (fun pos =>
    collisionMsg pos (occupantsAt (coordEntries init) pos))

/-- The diagnostic for an `npc-static` without a placement. -/
def npcStaticMsg (name : String) : String :=
  "npc-static '" ++ name ++ "' must have a placement specified"

/-- The diagnostic for an unresolved entity reference in a rule. -/
def unknownEntityMsg (entity : String) : String :=
  "Unknown entity referenced in rule: " ++ entity

/-- The reference-resolution test of `Validator.validate_semantics`: the
entity is looked up among mythics, items, monsters and NPCs. -/
def entityDeclared (init : InitSection) (entity : String) : Bool :=
  init.mythics.any (fun m => m.unique_name = entity) ||
  init.items.any (fun i => i.unique_name = entity) ||
  init.monsters.any (fun m => m.unique_name = entity) ||
  init.npcs.any (fun n => n.unique_name = entity)

/-- `Validator.validate_semantics`: the user-position check, the
`npc-static` placement check, and reference resolution over the conditions
of the rules section only. -/
def validateSemantics (p : Program) (init : InitSection) : List String :=
  (match init.user with
   | some u => if u.position = none then ["User must have an initial position"] else []
   | none => []) ++
  init.npcs.filterMap (fun n =>
    if n.npc_type = "npc-static" ∧ n.placement = none then
      some (npcStaticMsg n.unique_name)
    else none) ++
  (match p.rules_section with
   | none => []
   | some rs => rs.rules.flatMap (fun r =>
      r.conditions.filterMap (fun c =>
        if c.entity ≠ "user" ∧ ¬entityDeclared init c.entity then
          some (unknownEntityMsg c.entity)
        else none)))

/-- `Validator.validate`: a missing init section short-circuits; otherwise
the three checks run in order and their diagnostics are concatenated. -/
def validate (p : Program) : List String :=
  match p.init_section with
  | none => ["Missing required 'init:' section"]
  | some init =>
    validateUniqueness init ++ validateCollisions init ++
      validateSemantics p init

/-! ## Code generator

The serialisation of the initial game state is modelled structurally by the
`Json` type below; `jsonRender` models `json.dumps` up to insignificant
whitespace (`indent=2` pretty-printing) and up to `ensure_ascii` escaping of
non-ASCII characters — every theorem below depends only on the structural
content (key order, element order, integer formatting), never on the
whitespace. -/

/-- A JSON value as produced by the generator.  Object fields are an
ordered association list, exactly like a Python dict's insertion order.
Floats keep the symbolic decimal form carried by `PyVal.vFloat`. -/
inductive Json where
  | null
  | bool (b : Bool)
  | int (n : Int)
  | float (intPart : Nat) (frac : List Nat)
  | str (s : String)
  | arr (elems : List Json)
  | obj (fields : List (String × Json))
deriving Repr

/-- The decimal digit characters. -/
def digitChars : List Char :=
  ['0', '1', '2', '3', '4', '5', '6', '7', '8', '9']

/-- Decimal digits of a natural number (fuel-indexed; `natDecimal` supplies
enough fuel for any input). -/
def natDecimalAux : Nat → Nat → List Char
  | 0, _ => []
  | fuel + 1, n =>
    if n < 10 then [digitChars.getD n '0']
    else natDecimalAux fuel (n / 10) ++ [digitChars.getD (n % 10) '0']

/-- Decimal representation of a natural number. -/
def natDecimal (n : Nat) : List Char := natDecimalAux (n + 1) n

/-- Decimal representation of an integer, as printed by `json.dumps` for a
Python `int` (no decimal point, optional leading minus). -/
def intDecimal (i : Int) : String :=
  if i < 0 then String.mk ('-' :: natDecimal i.natAbs)
  else String.mk (natDecimal i.toNat)

/-- JSON string escaping for one character (the escapes `json.dumps`
produces for the characters that occur in this pipeline). -/
def escapeChar (c : Char) : List Char :=
  if c = '"' then ['\\', '"']
  else if c = '\\' then ['\\', '\\']
  else if c = '\n' then ['\\', 'n']
  else if c = '\t' then ['\\', 't']
  else if c = '\r' then ['\\', 'r']
  else [c]

/-- A JSON string literal. -/
def jsonStrLit (s : String) : String :=
  "\"" ++ String.mk (s.data.flatMap escapeChar) ++ "\""

mutual

/-- Render a JSON value (models `json.dumps` up to whitespace). -/
def jsonRender : Json → String
  | .null => "null"
  | .bool b => if b then "true" else "false"
  | .int n => intDecimal n
  | .float ip fr =>
    String.mk (natDecimal ip) ++ "." ++
      String.mk (fr.map (fun d => digitChars.getD d '0'))
  | .str s => jsonStrLit s
  | .arr xs => "[" ++ jsonRenderArr xs ++ "]"
  | .obj kvs => "\x7b" ++ jsonRenderObj kvs ++ "\x7d"

/-- Render the comma-separated elements of a JSON array. -/
def jsonRenderArr : List Json → String
  | [] => ""
  | [x] => jsonRender x
  | x :: xs => jsonRender x ++ ", " ++ jsonRenderArr xs

/-- Render the comma-separated fields of a JSON object. -/
def jsonRenderObj : List (String × Json) → String
  | [] => ""
  | [(k, v)] => jsonStrLit k ++ ": " ++ jsonRender v
  | (k, v) :: kvs => jsonStrLit k ++ ": " ++ jsonRender v ++ ", " ++ jsonRenderObj kvs

end

/-- Field lookup in a serialised JSON object (used only to state theorems
about the generator's output). -/
def objGet (k : String) : Json → Option Json
  | .obj kvs => kvs.lookup k
  | _ => none

/-- The top-level key list of a JSON object (used only to state theorems). -/
def topKeys : Json → List String
  | .obj kvs => kvs.map (fun kv => kv.1)
  | _ => []

/-- A dynamic value as serialised by `json.dumps`. -/
def pyValToJson : PyVal → Json
  | .vNone => .null
  | .vStr s => .str s
  | .vInt n => .int n
  | .vFloat ip fr => .float ip fr
  | .vBool b => .bool b

/-- An optional string as serialised by `json.dumps` (`None` → `null`). -/
def jsonOfOptStr : Option String → Json
  | some s => .str s
  | none => .null

/-- Python `x or d` on an optional string (`None` and `""` are falsy). -/
def pyOrStr (o : Option String) (d : String) : String :=
  match o with
  | some s => if s = "" then d else s
  | none => d

/-- Python `x or d` on an optional integer (`None` and `0` are falsy). -/
def pyOrInt (o : Option Int) (d : Int) : Int :=
  match o with
  | some n => if n = 0 then d else n
  | none => d

/-- `list(coord)` as a JSON array (a missing tuple would raise in Python;
unreachable for parser-built placements, rendered as `null` here). -/
def coordJson : Option (Int × Int) → Json
  | some (x, y) => .arr [.int x, .int y]
  | none => .null

/-- `placement.percentage if placement.percentage is not None else 50`
(used by `placement_to_dict`). -/
def percentageOr50 (pl : Placement) : Json :=
  match pl.percentage with
  | some v => pyValToJson v
  | none => .int 50

/-- `getattr(placement, 'percentage', 50)`: the dataclass always has the
attribute, so its value — possibly `None` — is returned and the default 50
is dead. -/
def percentageAttr (pl : Placement) : Json :=
  match pl.percentage with
  | some v => pyValToJson v
  | none => .null

/-- `CodeGenerator.placement_to_dict`. -/
def placement_to_dict (pl : Placement) : Json :=
  if pl.type = "all" then .obj [("type", .str "all")]
  else if pl.type = "coordinate" then
    .obj [("type", .str "coordinate"), ("coord", coordJson pl.coord1)]
  else if pl.type = "range" then
    .obj [("type", .str "range"), ("coord1", coordJson pl.coord1),
      ("coord2", coordJson pl.coord2)]
  else if pl.type = "random" then
    .obj [("type", .str "random"), ("percentage", percentageOr50 pl)]
  else .obj []

/-- `CodeGenerator.condition_to_dict` (fields added only when the Python
value is truthy / not `None`). -/
def condition_to_dict (c : Condition) : Json :=
  .obj ([("type", .str c.type), ("entity", .str c.entity)] ++
    (match c.position with
     | some (x, y) => [("position", .arr [.int x, .int y])]
     | none => []) ++
    (match c.operator with
     | some op => if op = "" then [] else [("operator", .str op)]
     | none => []) ++
    (if c.value = .vNone then [] else [("value", pyValToJson c.value)]))

/-- `CodeGenerator.action_to_dict`. -/
def action_to_dict (a : Action) : Json :=
  .obj [("type", .str a.type), ("command", jsonOfOptStr a.command),
    ("target", jsonOfOptStr a.target), ("value", pyValToJson a.value)]

/-- `CodeGenerator.npc_condition_to_dict`: each dataclass field under its
own key, in the dict-literal order. -/
def npc_condition_to_dict (c : NPCCondition) : Json :=
  .obj [("condition_type", pyValToJson c.condition_type),
    ("operator", pyValToJson c.operator),
    ("value", pyValToJson c.value),
    ("then_action", pyValToJson c.then_action),
    ("action_value", pyValToJson c.action_value)]

/-- `CodeGenerator.end_condition_to_dict`. -/
def end_condition_to_dict (ec : EndCondition) : Json :=
  .obj [("condition", condition_to_dict ec.condition),
    ("result", jsonOfOptStr ec.result)]

/-- The trailing `position` / `placement` fields shared by the mythic, item
and monster serialisations: resolved coordinate placements add `position`,
random placements add a deferred `placement` object, anything else adds
nothing. -/
def placementFields (pl : Option Placement) : List (String × Json) :=
  match pl with
  | some pl =>
    if pl.type = "coordinate" then [("position", coordJson pl.coord1)]
    else if pl.type = "random" then
      [("placement", .obj [("type", .str "random"),
        ("percentage", percentageAttr pl)])]
    else []
  | none => []

/-- The furniture entries of `generate_game_state`. -/
def furnitureToDict (f : FurnitureItem) : Json :=
  .obj [("name", .str f.name), ("placement", placement_to_dict f.placement)]

/-- The mythic entries of `generate_game_state`. -/
def mythicToDict (m : MythicItem) : Json :=
  .obj ([("unique_name", .str m.unique_name),
    ("can_pickup", .bool m.can_pickup),
    ("picked_up", .bool false),
    ("catch_message", .str (pyOrStr m.catch_message "Not now"))] ++
    placementFields m.placement)

/-- The item entries of `generate_game_state`. -/
def itemToDict (i : ItemDecl) : Json :=
  .obj ([("unique_name", .str i.unique_name),
    ("item_type", .str i.item_type),
    ("can_pickup", .bool i.can_pickup),
    ("picked_up", .bool false),
    ("effect", jsonOfOptStr i.effect),
    ("damage", .int (pyOrInt i.damage 1)),
    ("catch_message", .str (pyOrStr i.catch_message "Not now"))] ++
    placementFields i.placement)

/-- The monster entries of `generate_game_state` (`health` and
`max_health` are both `monster.health or monster.killable_hits or 1`,
`experience` is `monster.experience or 0`). -/
def monsterToDict (m : MonsterDecl) : Json :=
  .obj ([("unique_name", .str m.unique_name),
    ("monster_type", .str m.monster_type),
    ("health", .int (pyOrInt m.health (pyOrInt m.killable_hits 1))),
    ("max_health", .int (pyOrInt m.health (pyOrInt m.killable_hits 1))),
    ("experience", .int (pyOrInt m.experience 0)),
    ("defeated", .bool false)] ++
    placementFields m.placement)

/-- The NPC entries of `generate_game_state`; a static NPC without any
placement gets the fallback position `[10, 10]`. -/
def npcToDict (n : NPCDecl) : Json :=
  .obj ([("unique_name", .str n.unique_name),
    ("npc_type", .str n.npc_type),
    ("context", jsonOfOptStr n.context),
    ("response", jsonOfOptStr n.response),
    ("state_machine", .str (pyOrStr n.state_machine "idle")),
    ("emoji", .str (pyOrStr n.emoji "👤")),
    ("agenda", jsonOfOptStr n.agenda),
    ("conditions", .arr (n.conditions.map npc_condition_to_dict)),
    ("catch_message", .str (pyOrStr n.catch_message "Not now")),
    ("conversation_history", .arr []),
    ("has_responded", .bool false)] ++
    (match n.placement with
     | some pl => placementFields (some pl)
     | none =>
       if n.npc_type = "npc-static" then
         [("position", .arr [.int 10, .int 10])]
       else []))

/-- The user entry of `generate_game_state`. -/
def userJson (init : InitSection) : Json :=
  .obj [("unique_name", .str (match init.user with
      | some u => u.unique_name
      | none => "player")),
    ("position", match init.user with
      | some u => match u.position with
        | some (x, y) => .arr [.int x, .int y]
        | none => .arr [.int 50, .int 50]
      | none => .arr [.int 50, .int 50]),
    ("health", .int 100),
    ("experience", .int 0),
    ("level", .int 1),
    ("inventory", .arr []),
    ("context", match init.user with
      | some u => jsonOfOptStr u.context
      | none => .null),
    ("talked_to_npcs", .arr []),
    ("showHealthBar", .bool false)]

/-- Insert-or-overwrite into an ordered association list, matching Python
dict assignment (existing keys keep their position). -/
def upsert : List (String × Json) → String → Json → List (String × Json)
  | [], k, v => [(k, v)]
  | (k', v') :: rest, k, v =>
    if k' = k then (k', v) :: rest else (k', v') :: upsert rest k v

/-- The `variables` object of `generate_game_state`. -/
def varsJson (p : Program) : List (String × Json) :=
  p.«variables».foldl (fun acc vd => upsert acc vd.name (pyValToJson vd.value)) []

/-- The quest entries of `generate_game_state` (`quest.name if quest.name
else f'quest_{i}'`). -/
def questsJson (p : Program) : List Json :=
  match p.quests_section with
  | none => []
  | some qs => qs.quests.enum.map (fun iq =>
      .obj [("id", .str (match truthyStr iq.2.name with
          | some n => n
          | none => "quest_" ++ toString iq.1)),
        ("conditions", .arr (iq.2.conditions.map condition_to_dict)),
        ("action", action_to_dict iq.2.action),
        ("status", .str "active"),
        ("completed", .bool false)])

/-- The rule entries of `generate_game_state`. -/
def rulesJson (p : Program) : List Json :=
  match p.rules_section with
  | none => []
  | some rs => rs.rules.enum.map (fun ir =>
      .obj [("id", .str ("rule_" ++ toString ir.1)),
        ("conditions", .arr (ir.2.conditions.map condition_to_dict)),
        ("action", action_to_dict ir.2.action),
        ("triggered", .bool false)])

/-- The `end_game` entry (the initial `{}` unless the section exists). -/
def endGameJson (p : Program) : Json :=
  match p.end_game_section with
  | none => .obj []
  | some eg => .obj [("conditions", .arr (eg.conditions.map end_condition_to_dict)),
      ("win_message", jsonOfOptStr eg.win_message),
      ("lose_message", jsonOfOptStr eg.lose_message)]

/-- The `on_game_start` entry (the initial `{}` unless the section
exists). -/
def onGameStartJson (p : Program) : Json :=
  match p.on_game_start_section with
  | none => .obj []
  | some og => .obj [("title", jsonOfOptStr og.title),
      ("text_lines", .arr (og.text_lines.map Json.str)),
      ("links", .arr (og.links.map (fun l => .arr [.str l.1, .str l.2])))]

/-- The serialised initial game state of `CodeGenerator.generate_game_state`
(the `state` dict, field for field; the two trailing keys are assigned the
conditional values in place, preserving the literal's key order exactly as
Python dict assignment does). -/
def gameState (p : Program) (init : InitSection) : Json :=
  let world := init.world.getD ⟨100, 100⟩
  .obj [
    ("world", .obj [("width", .int world.width), ("height", .int world.height)]),
    ("user", userJson init),
    ("terrain", .obj []),
    ("furniture", .arr (init.furniture.map furnitureToDict)),
    ("mythics", .arr (init.mythics.map mythicToDict)),
    ("items", .arr (init.items.map itemToDict)),
    ("monsters", .arr (init.monsters.map monsterToDict)),
    ("npcs", .arr (init.npcs.map npcToDict)),
    ("variables", .obj (varsJson p)),
    ("quests", .arr (questsJson p)),
    ("rules", .arr (rulesJson p)),
    ("end_game", endGameJson p),
    ("on_game_start", onGameStartJson p)]

/-- `CodeGenerator.generate_game_state` as a string.  Accessing the init
section of a program without one raises in Python; modelled as an error. -/
def generate_game_state (p : Program) : Except CompileErr String :=
  match p.init_section with
  | none => .error .typeErr
  | some init =>
    .ok ("const INITIAL_GAME_STATE = " ++ jsonRender (gameState p init) ++ ";")

/-- The fixed CSS template of `CodeGenerator.generate_css`.  The literal
body is compiler-inert data (never inspected by any code path); it is
abbreviated to a marker constant, which no theorem's statement depends
on beyond its being a fixed string. -/
def generate_css : String :=
  "/* fixed CSS template body of generate_css (constant) */"

/-- The fixed HTML body template of `CodeGenerator.generate_html`
(constant data, abbreviated like `generate_css`). -/
def generate_html_body : String :=
  "<!-- fixed HTML body template of generate_html (constant) -->"

/-- The fixed runtime script of `CodeGenerator.generate_game_engine`
before placeholder substitution (constant data, abbreviated; it contains
the two placeholder tokens exactly once each, as the real template does). -/
def engineTemplate : String :=
  "// fixed game engine template (constant); llmEndpoint = LLM_ENDPOINT_PLACEHOLDER; llmToken = LLM_TOKEN_PLACEHOLDER;"

/-- `CodeGenerator.generate_game_engine`: the two placeholders are replaced
by the JSON-encoded LLM endpoint/token, or the bare word `null` when the
init section is absent or the field is falsy. -/
def generate_game_engine (p : Program) : String :=
  let ep := match p.init_section with
    | some init =>
      match truthyStr init.llm_endpoint with
      | some e => jsonRender (.str e)
      | none => "null"
    | none => "null"
  let tk := match p.init_section with
    | some init =>
      match truthyStr init.llm_token with
      | some t => jsonRender (.str t)
      | none => "null"
    | none => "null"
  (engineTemplate.replace "LLM_ENDPOINT_PLACEHOLDER" ep).replace
    "LLM_TOKEN_PLACEHOLDER" tk

/-- `CodeGenerator.generate_javascript`. -/
def generate_javascript (p : Program) : Except CompileErr String := do
  let gs ← generate_game_state p
  .ok (gs ++ "\n" ++ generate_game_engine p)

/-- `CodeGenerator.generate`: the fixed document skeleton around the CSS,
body and script parts. -/
def generate (p : Program) : Except CompileErr String := do
  let js ← generate_javascript p
  .ok ("<!DOCTYPE html>\n<html lang=\"en\">\n<head>\n    <meta charset=\"UTF-8\">\n    <meta name=\"viewport\" content=\"width=device-width, initial-scale=1.0\">\n    <title>Dungeon Game</title>\n    <style>\n        " ++
    generate_css ++
    "\n    </style>\n</head>\n<body>\n    " ++
    generate_html_body ++
    "\n    <script>\n        " ++
    js ++
    "\n    </script>\n</body>\n</html>")

/-! ## Driver -/

/-- The observable outcome of `main` on one input: the process exit code
and the HTML written to the output file (if any). -/
structure DriverResult where
  exitCode : Nat
  written : Option String
deriving DecidableEq, Repr

/-- `main`: lex, parse, validate, generate, and only then write.  Any
failure — a syntax error, a non-empty diagnostic list, or any other
exception — exits with code 1 without writing; success writes the generated
HTML and exits 0. -/
def mainDriver (src : String) : DriverResult :=
  match tokenize src with
  | .error _ => ⟨1, none⟩
  | .ok toks =>
    match parseProgram toks with
    | .error _ => ⟨1, none⟩
    | .ok prog =>
      if validate prog ≠ [] then ⟨1, none⟩
      else
        match generate prog with
        | .error _ => ⟨1, none⟩
        | .ok html => ⟨0, some html⟩

/-- All four pipeline stages succeed on the given source. -/
def stagesSucceed (src : String) : Prop :=
  ∃ toks prog html, tokenize src = .ok toks ∧ parseProgram toks = .ok prog ∧
    validate prog = [] ∧ generate prog = .ok html

/-! ## Auxiliary lemmas -/

theorem string_eq_of_data {a b : String} (h : a.data = b.data) : a = b := by
  cases a
  cases b
  simp only at h
  rw [h]

theorem string_append_left_cancel {a b c : String} (h : a ++ b = a ++ c) :
    b = c := by
  have h2 : (a ++ b).data = (a ++ c).data := by rw [h]
  rw [String.data_append, String.data_append] at h2
  exact string_eq_of_data (List.append_cancel_left h2)

theorem dupMsg_inj {a b : String} (h : dupMsg a = dupMsg b) : a = b :=
  string_append_left_cancel h

/-- The position reached by `Lexer.advance` over a character list. -/
def advanceOver (cs : List Char) (line col : Nat) : Nat × Nat :=
  cs.foldl (fun p c => adv1 c p.1 p.2) (line, col)

/-- `read_string` on a remainder whose matching quote never occurs
(unescaped) before end of input, and which does not end in a dangling
backslash, consumes everything and returns the escape-decoded
characters. -/
theorem readStringLoop_runs_to_eof (q : Char) :
    ∀ (n : Nat) (rest : List Char), rest.length ≤ n → ∀ (line col : Nat),
    runsToEof q rest = true →
    readStringLoop q rest line col =
      .ok (decodeToEof rest, [], (advanceOver rest line col).1,
        (advanceOver rest line col).2) := by
  intro n
  induction n with
  | zero =>
    intro rest hlen line col _
    rw [List.length_eq_zero.mp (Nat.le_zero.mp hlen)]
    rfl
  | succ n ih =>
    intro rest hlen line col hrun
    cases rest with
    | nil => rfl
    | cons c cs =>
      by_cases hcq : c = q
      · subst hcq
        rw [runsToEof.eq_def] at hrun
        simp at hrun
      · by_cases hbs : c = '\\'
        · subst hbs
          cases cs with
          | nil =>
            rw [runsToEof.eq_def] at hrun
            simp [hcq] at hrun
          | cons d ds =>
            rw [runsToEof.eq_def] at hrun
            simp only [if_neg hcq, if_pos rfl] at hrun
            have hds : ds.length ≤ n := by
              simp only [List.length_cons] at hlen
              omega
            rw [readStringLoop.eq_def]
            simp only [if_neg hcq, if_pos rfl]
            rw [ih ds hds _ _ hrun]
            conv_rhs => rw [decodeToEof.eq_def]
            simp [advanceOver]
        · rw [runsToEof.eq_def] at hrun
          simp only [if_neg hcq, if_neg hbs] at hrun
          have hcs : cs.length ≤ n := by
            simp only [List.length_cons] at hlen
            omega
          rw [readStringLoop.eq_def]
          simp only [if_neg hcq, if_neg hbs]
          rw [ih cs hcs _ _ hrun]
          conv_rhs => rw [decodeToEof.eq_def]
          simp [hbs, advanceOver]

/-- `skip_whitespace` does nothing on a non-whitespace head. -/
theorem skipWs_not_ws (c : Char) (cs : List Char) (line col : Nat)
    (h : ¬ isWs c = true) : skipWs (c :: cs) line col = (c :: cs, line, col) := by
  rw [skipWs, if_neg h]

/-- The lexer loop at end of input emits the final `eof` token. -/
theorem lexLoop_nil (fuel line col : Nat) :
    lexLoop (fuel + 1) [] line col = .ok [⟨.EOF, .vNone, line, col⟩] := by
  rw [lexLoop]
  rfl

/-! ## Claim theorems -/

/-- C1: the `NPCCondition` produced for a successfully parsed NPC condition
clause.  The Python constructor call passes
`(condition_type, operator, value, action_type, action_value)` positionally
into the dataclass fields
`(condition_type, then_action, operator, value, action_value)`:
for the clause `if player has strength > 10 then response "msg"` the
operator `">"` lands in `then_action`, the number `10` in `operator`, and
the word `"response"` in `value` — and `npc_condition_to_dict` serialises
exactly these scrambled fields.  (The claim's own example
`if user has experience > 10 then ...` cannot even parse: `user` and
`experience` lex as keywords where the parser expects identifiers.) -/
theorem npc_condition_fields_scrambled :
    (do
      let toks ← tokenize "if player has strength > 10 then response \"msg\""
      let (c, _) ← parseNpcCondition toks
      pure c : Except CompileErr NPCCondition) =
      .ok ⟨.vStr "strength", .vStr ">", .vInt 10, .vStr "response", .vStr "msg"⟩ ∧
    npc_condition_to_dict
        ⟨.vStr "strength", .vStr ">", .vInt 10, .vStr "response", .vStr "msg"⟩ =
      .obj [("condition_type", .str "strength"), ("operator", .int 10),
        ("value", .str "response"), ("then_action", .str ">"),
        ("action_value", .str "msg")] ∧
    (do
      let toks ← tokenize "if user has experience > 10 then response \"msg\""
      let (c, _) ← parseNpcCondition toks
      pure c : Except CompileErr NPCCondition) = .error (.syntaxErr 1 4) := by
  refine ⟨by rfl, by rfl, by rfl⟩

/-- C4: column tracking after the `level up` multi-word fold.  On the
source `level up x` the lexer reports the token `x` at column 7, but the
character at 1-based column 7 of the source is `u` — `x` actually sits at
column 10.  The fold advances the position by 3 characters without
updating the column counter. -/
theorem column_wrong_after_level_up :
    tokenize "level up x" =
      .ok [⟨.IDENTIFIER, .vStr "level up", 1, 1⟩,
        ⟨.IDENTIFIER, .vStr "x", 1, 7⟩,
        ⟨.EOF, .vNone, 1, 8⟩] ∧
    "level up x".data.get? (7 - 1) = some 'u' ∧
    "level up x".data.get? (10 - 1) = some 'x' := by
  refine ⟨by rfl, by rfl, by rfl⟩

/-- C3 counterexample: on the input `"abc` — a double-quoted string never
closed before end of input — the lexer succeeds, emitting the accumulated
characters as a string token followed by `eof`, instead of failing with a
`SyntaxError`. -/
theorem unterminated_string_lexes :
    tokenize "\"abc" =
      .ok [⟨.STRING, .vStr "abc", 1, 1⟩, ⟨.EOF, .vNone, 1, 5⟩] := by
  rfl

/-- C3 amended: when the lexer meets an opening quote whose matching quote
never occurs (unescaped) in the remaining input, and the input does not
end in a dangling backslash escape, it consumes up to end of input —
decoding any interior escape sequences — and emits the accumulated
characters as a string token, then the terminating `eof`; no error is
raised. -/
theorem unterminated_string_consumes_to_eof (q : Char) (rest : List Char)
    (line col fuel : Nat) (hq : q = '"' ∨ q = '\'')
    (hrest : runsToEof q rest = true) :
    lexLoop (fuel + 2) (q :: rest) line col =
      .ok [⟨.STRING, .vStr (String.mk (decodeToEof rest)), line, col⟩,
        ⟨.EOF, .vNone, (advanceOver rest line (col + 1)).1,
          (advanceOver rest line (col + 1)).2⟩] := by
  rcases hq with rfl | rfl
  · rw [lexLoop]
    rw [skipWs_not_ws '\"' rest line col (by decide)]
    simp [readStringLoop_runs_to_eof '\"' rest.length rest le_rfl line
      (col + 1) hrest, lexLoop_nil]
  · rw [lexLoop]
    rw [skipWs_not_ws '\'' rest line col (by decide)]
    simp [readStringLoop_runs_to_eof '\'' rest.length rest le_rfl line
      (col + 1) hrest, lexLoop_nil]

/-- Witness for the amended C3 theorem at a concrete input containing an
interior escape sequence (the unterminated literal `"a\nb`): the escape
is decoded and the lexer succeeds. -/
theorem unterminated_string_consumes_to_eof_witness :
    lexLoop 2 ('"' :: ['a', '\\', 'n', 'b']) 1 1 =
      .ok [⟨.STRING, .vStr "a\nb", 1, 1⟩, ⟨.EOF, .vNone, 1, 6⟩] :=
  unterminated_string_consumes_to_eof '"' ['a', '\\', 'n', 'b'] 1 1 0
    (Or.inl rfl) (by decide)

/-- A monster declaring `health 0` (and no `killable_hits`). -/
def monsterHealthZero : MonsterDecl :=
  { unique_name := "slime", health := some 0 }

/-- C8 counterexample: for a monster whose declared health is present but
equal to 0, the serialised `health` is 1, not the declared 0 — `monster.health
or monster.killable_hits or 1` treats 0 as absent. -/
theorem monster_zero_health_not_preserved :
    monsterHealthZero.health = some 0 ∧
    objGet "health" (monsterToDict monsterHealthZero) = some (.int 1) ∧
    (1 : Int) ≠ 0 := by
  refine ⟨rfl, by rfl, by decide⟩

/-- The health value the amended C8 claim assigns to a serialised monster:
the declared health when present and nonzero, else `killable_hits` when
present and nonzero, else 1. -/
def healthFallback (m : MonsterDecl) : Int :=
  match m.health with
  | some h => if h ≠ 0 then h else
      (match m.killable_hits with
       | some k => if k ≠ 0 then k else 1
       | none => 1)
  | none =>
      (match m.killable_hits with
       | some k => if k ≠ 0 then k else 1
       | none => 1)

/-- C8 amended: every serialised monster's `health` and `max_health` are
equal and given by the first of declared health and `killable_hits` that is
present and nonzero, else 1; `experience` is the declared value when
present, else 0 (a declared 0 is preserved, as `0 or 0` is 0). -/
theorem monster_health_serialisation (m : MonsterDecl) :
    objGet "health" (monsterToDict m) = some (.int (healthFallback m)) ∧
    objGet "max_health" (monsterToDict m) = objGet "health" (monsterToDict m) ∧
    objGet "experience" (monsterToDict m) = some (.int (m.experience.getD 0)) := by
  obtain ⟨un, mty, pl, hp, kh, xp⟩ := m
  have h1 : objGet "health" (monsterToDict ⟨un, mty, pl, hp, kh, xp⟩) =
      some (.int (pyOrInt hp (pyOrInt kh 1))) := by rfl
  have h2 : objGet "max_health" (monsterToDict ⟨un, mty, pl, hp, kh, xp⟩) =
      some (.int (pyOrInt hp (pyOrInt kh 1))) := by rfl
  have h3 : objGet "experience" (monsterToDict ⟨un, mty, pl, hp, kh, xp⟩) =
      some (.int (pyOrInt xp 0)) := by rfl
  refine ⟨?_, by rw [h1, h2], ?_⟩
  · rw [h1]
    rcases hp with _ | h
    · rcases kh with _ | k
      · simp [pyOrInt, healthFallback]
      · by_cases hk : k = 0 <;> simp [pyOrInt, healthFallback, hk]
    · rcases kh with _ | k
      · by_cases hh : h = 0 <;> simp [pyOrInt, healthFallback, hh]
      · by_cases hh : h = 0 <;> by_cases hk : k = 0 <;>
          simp [pyOrInt, healthFallback, hh, hk]
  · rw [h3]
    rcases xp with _ | e
    · simp [pyOrInt]
    · by_cases he : e = 0 <;> simp [pyOrInt, he]

/-- C9: the driver writes the output file if and only if every stage
succeeded; on any failure — lexical or syntax error, non-empty diagnostics,
or a generator exception — it exits with code 1 and writes nothing, and on
success it writes exactly the generated HTML and exits 0. -/
theorem driver_writes_only_on_success (src : String) :
    (mainDriver src = ⟨1, none⟩ ∧ ¬ stagesSucceed src) ∨
    (∃ toks prog html, tokenize src = .ok toks ∧ parseProgram toks = .ok prog ∧
      validate prog = [] ∧ generate prog = .ok html ∧
      mainDriver src = ⟨0, some html⟩) := by
  rcases htok : tokenize src with e | toks
  · refine Or.inl ⟨by simp [mainDriver, htok], ?_⟩
    rintro ⟨toks, prog, html, h1, h2, h3, h4⟩
    rw [htok] at h1
    exact Except.noConfusion h1
  · rcases hp : parseProgram toks with e | prog
    · refine Or.inl ⟨by simp [mainDriver, htok, hp], ?_⟩
      rintro ⟨toks', prog, html, h1, h2, h3, h4⟩
      rw [htok] at h1
      cases h1
      rw [hp] at h2
      exact Except.noConfusion h2
    · by_cases hval : validate prog = []
      · rcases hg : generate prog with e | html
        · refine Or.inl ⟨by simp [mainDriver, htok, hp, hval, hg], ?_⟩
          rintro ⟨toks', prog', html, h1, h2, h3, h4⟩
          rw [htok] at h1
          cases h1
          rw [hp] at h2
          cases h2
          rw [hg] at h4
          exact Except.noConfusion h4
        · exact Or.inr ⟨toks, prog, html, rfl, hp, hval,
            hg, by simp [mainDriver, htok, hp, hval, hg]⟩
      · refine Or.inl ⟨by simp [mainDriver, htok, hp, hval], ?_⟩
        rintro ⟨toks', prog', html, h1, h2, h3, h4⟩
        rw [htok] at h1
        cases h1
        rw [hp] at h2
        cases h2
        exact hval h3

/-- The entity names referenced by quest conditions (used to state the C2
counterexample). -/
def questCondEntities (p : Program) : List String :=
  match p.quests_section with
  | some qs => qs.quests.flatMap (fun q => q.conditions.map (fun c => c.entity))
  | none => []

/-- An init section declaring only the user, at (1, 1). -/
def c2Init : InitSection := { user := some ⟨"p", none, some (1, 1)⟩ }

/-- A program whose only quest condition references the undeclared entity
`ghost`. -/
def c2Prog : Program :=
  { init_section := some c2Init,
    quests_section := some ⟨[⟨some "q",
      [⟨"has", "ghost", none, .vStr "gem", none⟩],
      ⟨"talk", none, none, .vStr "talk-static"⟩⟩]⟩ }

/-- C2 counterexample: the validator returns an empty diagnostic list for
`c2Prog`, which has an init section, even though the quest condition
references `ghost`, an entity name other than `user` that resolves to no
declared mythic, item, monster or NPC — `validate_semantics` only checks
the conditions of the rules section. -/
theorem quest_reference_not_validated :
    validate c2Prog = [] ∧
    questCondEntities c2Prog = ["ghost"] ∧
    ("ghost" : String) ≠ "user" ∧
    entityDeclared c2Init "ghost" = false := by
  refine ⟨by rfl, by rfl, by decide, by rfl⟩

/-- C2 amended: an empty diagnostic list guarantees reference resolution
for the conditions of the rules section (only): every entity name other
than `user` referenced there names a declared mythic, item, monster or
NPC. -/
theorem empty_diagnostics_resolve_rule_references (p : Program)
    (init : InitSection) (rs : RulesSection)
    (hinit : p.init_section = some init) (hrs : p.rules_section = some rs)
    (hval : validate p = []) :
    ∀ r ∈ rs.rules, ∀ c ∈ r.conditions, c.entity ≠ "user" →
      entityDeclared init c.entity = true := by
  intro r hr c hc hne
  by_contra hdecl
  have hmem : unknownEntityMsg c.entity ∈ validateSemantics p init := by
    unfold validateSemantics
    rw [hrs]
    refine List.mem_append.mpr (Or.inr ?_)
    apply List.mem_flatMap.mpr
    exact ⟨r, hr, List.mem_filterMap.mpr ⟨c, hc, by simp [hne, hdecl]⟩⟩
  unfold validate at hval
  rw [hinit] at hval
  rcases List.append_eq_nil.mp hval with ⟨h1, hsem⟩
  rw [hsem] at hmem
  exact List.not_mem_nil _ hmem

/-- An init section declaring the user and one monster `orc`. -/
def c2WInit : InitSection :=
  { monsters := [⟨"orc", "monster-static", none, none, none, none⟩],
    user := some ⟨"p", none, some (1, 1)⟩ }

/-- A rules section whose single rule condition references `orc`. -/
def c2WRules : RulesSection :=
  ⟨[⟨[⟨"comparison", "orc", some ">", .vInt 1, none⟩],
    ⟨"command", some "attack", none, .vNone⟩⟩]⟩

/-- A cleanly validating program used to witness the amended C2 theorem. -/
def c2WProg : Program :=
  { init_section := some c2WInit, rules_section := some c2WRules }

/-- Witness for the amended C2 theorem at a concrete program. -/
theorem empty_diagnostics_resolve_rule_references_witness :
    entityDeclared c2WInit "orc" = true :=
  empty_diagnostics_resolve_rule_references c2WProg c2WInit c2WRules rfl rfl
    (by rfl)
    ⟨[⟨"comparison", "orc", some ">", .vInt 1, none⟩],
      ⟨"command", some "attack", none, .vNone⟩⟩ (by simp [c2WRules])
    ⟨"comparison", "orc", some ">", .vInt 1, none⟩ (by simp)
    (by decide)

/-- C10: an entity declaration whose property list yields no `unique_name`
is silently dropped: parsing the declaration (head identifier, colon, and a
property list that succeeds with `unique_name = None`) continues exactly as
if the declaration were absent, for mythics, items, monsters and NPCs
alike; no error is raised and nothing of the declaration reaches the AST,
so neither the parser nor the validator can report anything about it. -/
theorem nameless_declarations_silently_dropped :
    (∀ (fuel pf : Nat) (t c : Token) (ts rest : List Token)
      (pl : Option Placement) (cp : Bool) (cm : Option String),
      t.type = .IDENTIFIER → c.type = .COLON →
      parseMythicProps pf none none false none ts =
        .ok ((none, pl, cp, cm), rest) →
      parseMythicsLoop (fuel + 1) pf (t :: c :: ts) =
        parseMythicsLoop fuel pf rest) ∧
    (∀ (fuel pf : Nat) (t c : Token) (ts rest : List Token)
      (pl : Option Placement) (cp : Bool) (eff : Option String)
      (dmg : Option Int) (cm : Option String),
      t.type = .IDENTIFIER → c.type = .COLON →
      parseItemProps pf none none false none none none ts =
        .ok ((none, pl, cp, eff, dmg, cm), rest) →
      parseItemsLoop (fuel + 1) pf (t :: c :: ts) =
        parseItemsLoop fuel pf rest) ∧
    (∀ (fuel pf : Nat) (t c : Token) (ts rest : List Token)
      (pl : Option Placement) (hp kh xp : Option Int),
      t.type = .IDENTIFIER →
      (tokStr t = "monster-static" ∨ tokStr t = "monster-dynamic" ∨
        tokStr t = "monster-boss") →
      c.type = .COLON →
      parseMonsterProps pf none none none none none ts =
        .ok ((none, pl, hp, kh, xp), rest) →
      parseMonstersLoop (fuel + 1) pf (t :: c :: ts) =
        parseMonstersLoop fuel pf rest) ∧
    (∀ (fuel pf : Nat) (t c : Token) (ts rest : List Token)
      (pl : Option Placement) (ctx resp sm em ag : Option String)
      (conds : List NPCCondition) (cm : Option String),
      t.type = .IDENTIFIER → c.type = .COLON →
      parseNpcProps pf none none none none none none none [] none ts =
        .ok ((none, pl, ctx, resp, sm, em, ag, conds, cm), rest) →
      parseNpcsLoop (fuel + 1) pf (t :: c :: ts) =
        parseNpcsLoop fuel pf rest) := by
  refine ⟨?_, ?_, ?_, ?_⟩
  · intro fuel pf t c ts rest pl cp cm ht hc hprops
    rw [parseMythicsLoop]
    simp [cur, adv, expectT, ht, hc, hprops, truthyStr, Except.bind, bind]
    cases parseMythicsLoop fuel pf rest <;> rfl
  · intro fuel pf t c ts rest pl cp eff dmg cm ht hc hprops
    rw [parseItemsLoop]
    simp [cur, adv, expectT, ht, hc, hprops, truthyStr, Except.bind, bind]
    cases parseItemsLoop fuel pf rest <;> rfl
  · intro fuel pf t c ts rest pl hp kh xp ht hmty hc hprops
    rw [parseMonstersLoop]
    rcases hmty with h | h | h <;>
      simp [cur, adv, expectT, ht, hc, h, hprops, truthyStr,
        Except.bind, bind] <;>
      cases parseMonstersLoop fuel pf rest <;> rfl
  · intro fuel pf t c ts rest pl ctx resp sm em ag conds cm ht hc hprops
    rw [parseNpcsLoop]
    simp [cur, adv, expectT, ht, hc, hprops, truthyStr, Except.bind, bind]
    cases parseNpcsLoop fuel pf rest <;> rfl

/-- Witness for C10 at concrete token lists (each declaration's property
list parses successfully but contains no `unique_name` property). -/
theorem nameless_declarations_silently_dropped_witness :
    parseMythicsLoop 2 3 [⟨.IDENTIFIER, .vStr "mythic-static", 1, 1⟩,
        ⟨.COLON, .vStr ":", 1, 14⟩, ⟨.CATCH, .vStr "catch", 1, 16⟩,
        ⟨.STRING, .vStr "m", 1, 22⟩, ⟨.EOF, .vNone, 1, 25⟩] =
      parseMythicsLoop 1 3 [⟨.EOF, .vNone, 1, 25⟩] ∧
    parseItemsLoop 2 3 [⟨.IDENTIFIER, .vStr "item-heal", 1, 1⟩,
        ⟨.COLON, .vStr ":", 1, 10⟩, ⟨.CATCH, .vStr "catch", 1, 12⟩,
        ⟨.STRING, .vStr "m", 1, 18⟩, ⟨.EOF, .vNone, 1, 21⟩] =
      parseItemsLoop 1 3 [⟨.EOF, .vNone, 1, 21⟩] ∧
    parseMonstersLoop 2 3 [⟨.IDENTIFIER, .vStr "monster-static", 1, 1⟩,
        ⟨.COLON, .vStr ":", 1, 15⟩, ⟨.HEALTH, .vStr "health", 1, 17⟩,
        ⟨.NUMBER, .vInt 5, 1, 24⟩, ⟨.EOF, .vNone, 1, 25⟩] =
      parseMonstersLoop 1 3 [⟨.EOF, .vNone, 1, 25⟩] ∧
    parseNpcsLoop 2 3 [⟨.IDENTIFIER, .vStr "npc-static", 1, 1⟩,
        ⟨.COLON, .vStr ":", 1, 11⟩, ⟨.CATCH, .vStr "catch", 1, 13⟩,
        ⟨.STRING, .vStr "m", 1, 19⟩, ⟨.EOF, .vNone, 1, 22⟩] =
      parseNpcsLoop 1 3 [⟨.EOF, .vNone, 1, 22⟩] := by
  refine ⟨nameless_declarations_silently_dropped.1 1 3 _ _ _ _ _ _ _
      rfl rfl (by rfl),
    nameless_declarations_silently_dropped.2.1 1 3 _ _ _ _ _ _ _ _ _
      rfl rfl (by rfl),
    nameless_declarations_silently_dropped.2.2.1 1 3 _ _ _ _ _ _ _ _
      rfl (Or.inl rfl) rfl (by rfl),
    nameless_declarations_silently_dropped.2.2.2 1 3 _ _ _ _ _ _ _ _ _ _ _ _
      rfl rfl (by rfl)⟩

/-- The coordinate-placement test of the C5 statement: the entity carries a
placement of type `'coordinate'` whose `coord1` is the given key. -/
def coordPlacedAt (pl : Option Placement) (pos : Option (Int × Int)) : Bool :=
  match pl with
  | some p => p.type = "coordinate" ∧ p.coord1 = pos
  | none => false

theorem mem_dedupKeysAux {α : Type} [DecidableEq α] (a : α) :
    ∀ (fuel : Nat) (l : List α), l.length ≤ fuel →
      (a ∈ dedupKeysAux fuel l ↔ a ∈ l) := by
  intro fuel
  induction fuel with
  | zero =>
    intro l hl
    rw [List.length_eq_zero.mp (Nat.le_zero.mp hl)]
    rfl
  | succ fuel ih =>
    intro l hl
    cases l with
    | nil => rfl
    | cons b bs =>
      have hlen : (bs.filter (fun x => x ≠ b)).length ≤ fuel :=
        le_trans (List.length_filter_le _ _) (Nat.lt_succ_iff.mp hl)
      constructor
      · intro h
        rcases List.mem_cons.mp h with rfl | h
        · exact List.mem_cons_self _ _
        · have := (ih _ hlen).mp h
          exact List.mem_cons_of_mem _ (List.mem_filter.mp this).1
      · intro h
        rcases List.mem_cons.mp h with rfl | h
        · exact List.mem_cons_self _ _
        · by_cases hab : a = b
          · rw [hab]; exact List.mem_cons_self _ _
          · refine List.mem_cons_of_mem _ ((ih _ hlen).mpr ?_)
            exact List.mem_filter.mpr ⟨h, by simp [hab]⟩

theorem mem_dedupKeys {α : Type} [DecidableEq α] (a : α) (l : List α) :
    a ∈ dedupKeys l ↔ a ∈ l :=
  mem_dedupKeysAux a l.length l le_rfl

theorem occupantsAt_append (e₁ e₂ : List (Option (Int × Int) × PosEntry))
    (pos : Option (Int × Int)) :
    occupantsAt (e₁ ++ e₂) pos = occupantsAt e₁ pos ++ occupantsAt e₂ pos := by
  simp [occupantsAt, List.filter_append]

theorem entriesOf_cons {α : Type} (pl : α → Option Placement) (k : EntKind)
    (nm : α → String) (a : α) (as : List α) :
    entriesOf pl k nm (a :: as) =
      (match pl a with
       | some p => if p.type = "coordinate" then
           [(p.coord1, (⟨k, nm a⟩ : PosEntry))] else []
       | none => []) ++ entriesOf pl k nm as := by
  rcases hpl : pl a with _ | p
  · simp [entriesOf, List.filterMap_cons, hpl]
  · by_cases hty : p.type = "coordinate" <;>
      simp [entriesOf, List.filterMap_cons, hpl, hty]

theorem occupantsAt_singleton (key pos : Option (Int × Int)) (e : PosEntry) :
    occupantsAt [(key, e)] pos = if key = pos then [e] else [] := by
  by_cases h : key = pos <;> simp [occupantsAt, List.filter_cons, h]

theorem occupantsAt_nil (pos : Option (Int × Int)) :
    occupantsAt [] pos = [] := rfl

theorem occupantsAt_entriesOf {α : Type} (pl : α → Option Placement)
    (k : EntKind) (nm : α → String) (l : List α) (pos : Option (Int × Int)) :
    occupantsAt (entriesOf pl k nm l) pos =
      (l.filter (fun a => coordPlacedAt (pl a) pos)).map
        (fun a => (⟨k, nm a⟩ : PosEntry)) := by
  induction l with
  | nil => rfl
  | cons a as ih =>
    rw [entriesOf_cons, occupantsAt_append, ih, List.filter_cons]
    rcases hpl : pl a with _ | p
    · simp [coordPlacedAt, hpl, occupantsAt_nil]
    · by_cases hty : p.type = "coordinate"
      · by_cases hco : p.coord1 = pos
        · simp [coordPlacedAt, hpl, hty, hco, occupantsAt_singleton]
        · simp [coordPlacedAt, hpl, hty, hco, occupantsAt_singleton]
      · simp [coordPlacedAt, hpl, hty, occupantsAt_nil]

theorem isNonPickup_mythic (s : String) :
    isNonPickup ⟨.mythic, s⟩ = false := rfl

theorem isNonPickup_item (s : String) :
    isNonPickup ⟨.item, s⟩ = false := rfl

theorem isNonPickup_monster (s : String) :
    isNonPickup ⟨.monster, s⟩ = true := rfl

theorem isNonPickup_npc (s : String) :
    isNonPickup ⟨.npc, s⟩ = true := rfl

/-- The non-pickup occupants of a cell are exactly the coordinate-placed
monsters and NPCs there. -/
theorem nonPickup_occupants_length (init : InitSection)
    (pos : Option (Int × Int)) :
    ((occupantsAt (coordEntries init) pos).filter isNonPickup).length =
      (init.monsters.filter (fun m => coordPlacedAt m.placement pos)).length +
      (init.npcs.filter (fun n => coordPlacedAt n.placement pos)).length := by
  unfold coordEntries
  simp only [occupantsAt_append, occupantsAt_entriesOf, List.filter_append,
    List.length_append, List.filter_map, Function.comp_def,
    isNonPickup_mythic, isNonPickup_item, isNonPickup_monster,
    isNonPickup_npc]
  simp [List.filter_false, List.filter_true]

theorem mem_keys_of_occupants_ne_nil
    (entries : List (Option (Int × Int) × PosEntry))
    (pos : Option (Int × Int)) (h : occupantsAt entries pos ≠ []) :
    pos ∈ entries.map (fun e => e.1) := by
  have h2 : entries.filter (fun e => e.1 = pos) ≠ [] := by
    intro hz
    exact h (by simp [occupantsAt, hz])
  obtain ⟨e, he⟩ := List.exists_mem_of_ne_nil _ h2
  have h3 := List.mem_filter.mp he
  exact List.mem_map.mpr ⟨e, h3.1, by simpa using h3.2⟩

/-- C5: the validator flags a collision diagnostic for the cell (x, y) iff
at least two coordinate-placed entities that are monsters or NPCs sit
there; the emitted diagnostics are exactly the `Collision at …` messages of
the flagged cells, and the check depends only on the coordinate-placement
entries — entities with range or random placements (or none) are never
consulted. -/
theorem collision_flagged_iff (init : InitSection) (x y : Int) :
    (some (x, y) ∈ collisionCells init ↔
      2 ≤ (init.monsters.filter
          (fun m => coordPlacedAt m.placement (some (x, y)))).length +
        (init.npcs.filter
          (fun n => coordPlacedAt n.placement (some (x, y)))).length) ∧
    validateCollisions init = (collisionCells init).map
      (fun pos => collisionMsg pos (occupantsAt (coordEntries init) pos)) ∧
    (∀ init₂ : InitSection, coordEntries init = coordEntries init₂ →
      validateCollisions init = validateCollisions init₂) := by
  refine ⟨?_, rfl, ?_⟩
  · constructor
    · intro h
      have h2 := (List.mem_filter.mp h).2
      simp only [decide_eq_true_eq] at h2
      have h3 := h2.2
      rw [nonPickup_occupants_length] at h3
      omega
    · intro h
      have hf : 2 ≤ ((occupantsAt (coordEntries init) (some (x, y))).filter
          isNonPickup).length := by
        rw [nonPickup_occupants_length]
        exact h
      have hlen : 2 ≤ (occupantsAt (coordEntries init) (some (x, y))).length :=
        le_trans hf (List.length_filter_le _ _)
      have hne : occupantsAt (coordEntries init) (some (x, y)) ≠ [] := by
        intro hz
        rw [hz] at hlen
        simp at hlen
      have hkey := mem_keys_of_occupants_ne_nil _ _ hne
      refine List.mem_filter.mpr ⟨(mem_dedupKeys _ _).mpr hkey, ?_⟩
      simp only [decide_eq_true_eq]
      exact ⟨by omega, by omega⟩
  · intro init₂ h12
    unfold validateCollisions collisionCells
    rw [h12]

/-- A monster and an NPC both coordinate-placed at (5, 5). -/
def c5Init : InitSection :=
  { monsters := [⟨"orc", "monster-static",
      some ⟨"coordinate", some (5, 5), none, none⟩, none, none, none⟩],
    npcs := [⟨"npc-static", "bob",
      some ⟨"coordinate", some (5, 5), none, none⟩,
      none, none, none, none, none, [], none⟩] }

/-- `c5Init` extended with a range-placed monster, which contributes no
coordinate entry. -/
def c5Init₂ : InitSection :=
  { c5Init with monsters := c5Init.monsters ++
      [⟨"dragon", "monster-boss",
        some ⟨"range", some (0, 0), some (3, 3), none⟩, none, none, none⟩] }

/-- Witness for C5 at a concrete init section. -/
theorem collision_flagged_iff_witness :
    (some ((5 : Int), (5 : Int)) ∈ collisionCells c5Init) ∧
    validateCollisions c5Init = validateCollisions c5Init₂ :=
  ⟨(collision_flagged_iff c5Init 5 5).1.mpr (by decide),
   (collision_flagged_iff c5Init 5 5).2.2 c5Init₂ (by rfl)⟩

theorem count_uniqErrorsAux (n : String) :
    ∀ (ns seen : List String),
      (uniqErrorsAux seen ns).count (dupMsg n) =
        ns.count n - (if n ∈ seen then 0 else 1) := by
  intro ns
  induction ns with
  | nil => intro seen; simp [uniqErrorsAux]
  | cons m ms ih =>
    intro seen
    rw [uniqErrorsAux]
    rw [List.count_append, ih (m :: seen)]
    by_cases hmn : m = n
    · subst hmn
      by_cases hseen : m ∈ seen
      · simp [hseen, List.count_cons]
        omega
      · simp [hseen, List.count_cons, List.mem_cons]
    · have hmsg : dupMsg m ≠ dupMsg n := fun h => hmn (dupMsg_inj h)
      have hcnt : (ms.count n - (if n ∈ m :: seen then 0 else 1)) =
          (ms.count n - (if n ∈ seen then 0 else 1)) := by
        have : (n ∈ m :: seen) ↔ (n ∈ seen) := by
          rw [List.mem_cons]
          constructor
          · rintro (rfl | h)
            · exact absurd rfl hmn
            · exact h
          · exact Or.inr
        rw [if_congr this rfl rfl]
      by_cases hseen : m ∈ seen
      · simp [hseen, List.count_cons, hmsg, Ne.symm hmn, hcnt]
      · simp [hseen, List.count_cons, hmsg, Ne.symm hmn, hcnt]

theorem dupMsg_head (n : String) : (dupMsg n).data.head? = some 'D' := rfl

theorem collisionMsg_head (pos : Option (Int × Int)) (ents : List PosEntry) :
    (collisionMsg pos ents).data.head? = some 'C' := rfl

theorem npcStaticMsg_head (name : String) :
    (npcStaticMsg name).data.head? = some 'n' := rfl

theorem unknownEntityMsg_head (e : String) :
    (unknownEntityMsg e).data.head? = some 'U' := rfl

theorem dupMsg_ne_of_head {s : String} (h : s.data.head? ≠ some 'D')
    (n : String) : dupMsg n ≠ s :=
  fun he => h (he ▸ dupMsg_head n)

/-- Collision diagnostics are never `Duplicate unique_name` diagnostics. -/
theorem count_dupMsg_collisions (init : InitSection) (n : String) :
    (validateCollisions init).count (dupMsg n) = 0 := by
  rw [List.count_eq_zero]
  intro hmem
  rw [validateCollisions] at hmem
  obtain ⟨pos, _, heq⟩ := List.mem_map.mp hmem
  exact dupMsg_ne_of_head (by rw [collisionMsg_head]; decide) n heq.symm

/-- No semantic diagnostic starts with the letter of `Duplicate …`. -/
theorem sem_msg_head (p : Program) (init : InitSection) :
    ∀ s ∈ validateSemantics p init, s.data.head? ≠ some 'D' := by
  intro s hs
  unfold validateSemantics at hs
  rcases List.mem_append.mp hs with h | hrules
  · rcases List.mem_append.mp h with huser | hnpc
    · rcases hu : init.user with _ | u
      · rw [hu] at huser
        simp at huser
      · rw [hu] at huser
        by_cases hpos : u.position = none
        · simp only [if_pos hpos] at huser
          rcases List.mem_singleton.mp huser with rfl
          decide
        · simp [hpos] at huser
    · obtain ⟨npc, _, heq⟩ := List.mem_filterMap.mp hnpc
      split at heq
      · cases heq
        rw [npcStaticMsg_head]
        decide
      · exact absurd heq (by simp)
  · rcases hr : p.rules_section with _ | rs
    · rw [hr] at hrules
      simp at hrules
    · rw [hr] at hrules
      obtain ⟨r, _, hc⟩ := List.mem_flatMap.mp hrules
      obtain ⟨c, _, heq⟩ := List.mem_filterMap.mp hc
      split at heq
      · cases heq
        rw [unknownEntityMsg_head]
        decide
      · exact absurd heq (by simp)

/-- Semantic diagnostics are never `Duplicate unique_name` diagnostics. -/
theorem count_dupMsg_semantics (p : Program) (init : InitSection)
    (n : String) : (validateSemantics p init).count (dupMsg n) = 0 := by
  rw [List.count_eq_zero]
  intro hmem
  exact sem_msg_head p init _ hmem (dupMsg_head n)

/-- C6: when a unique name occurs exactly twice among the declared mythics,
items, monsters, NPCs and the user, the validator's diagnostic list
contains the message `Duplicate unique_name: <name>` exactly once; when all
unique names are pairwise distinct, it contains no such message for any
name. -/
theorem duplicate_name_diag_count (p : Program) (init : InitSection)
    (name : String) (hinit : p.init_section = some init) :
    ((allNames init).count name = 2 → (validate p).count (dupMsg name) = 1) ∧
    ((allNames init).Nodup → (validate p).count (dupMsg name) = 0) := by
  have hv : validate p = validateUniqueness init ++ validateCollisions init ++
      validateSemantics p init := by
    unfold validate
    rw [hinit]
  have hcount : (validate p).count (dupMsg name) =
      (allNames init).count name - 1 := by
    rw [hv, List.count_append, List.count_append]
    rw [count_dupMsg_collisions, count_dupMsg_semantics]
    unfold validateUniqueness
    rw [count_uniqErrorsAux name (allNames init) []]
    simp
  constructor
  · intro h2
    rw [hcount, h2]
  · intro hnd
    rw [hcount]
    have := List.nodup_iff_count_le_one.mp hnd name
    omega

/-- Two items both named `key` (plus the user `p`). -/
def c6DupInit : InitSection :=
  { items := [⟨"item-key", "key", none, false, none, none, none⟩,
      ⟨"item-key", "key", none, false, none, none, none⟩],
    user := some ⟨"p", none, some (1, 1)⟩ }

/-- The same init section with only one `key` item. -/
def c6DistinctInit : InitSection :=
  { items := [⟨"item-key", "key", none, false, none, none, none⟩],
    user := some ⟨"p", none, some (1, 1)⟩ }

/-- Witness for C6 at two concrete programs. -/
theorem duplicate_name_diag_count_witness :
    (validate { init_section := some c6DupInit }).count (dupMsg "key") = 1 ∧
    (validate { init_section := some c6DistinctInit }).count (dupMsg "key") = 0 :=
  ⟨(duplicate_name_diag_count { init_section := some c6DupInit } c6DupInit
      "key" rfl).1 (by decide),
   (duplicate_name_diag_count { init_section := some c6DistinctInit }
      c6DistinctInit "key" rfl).2 (by decide)⟩

theorem getD_digit_mem (k : Nat) : digitChars.getD k '0' ∈ digitChars := by
  rcases h : digitChars.get? k with _ | c
  · rw [List.getD_eq_getElem?_getD, ← List.get?_eq_getElem?, h]
    decide
  · rw [List.getD_eq_getElem?_getD, ← List.get?_eq_getElem?, h]
    simpa using List.get?_mem h

theorem natDecimalAux_mem :
    ∀ (fuel n : Nat) (c : Char), c ∈ natDecimalAux fuel n → c ∈ digitChars := by
  intro fuel
  induction fuel with
  | zero => intro n c h; simp [natDecimalAux] at h
  | succ fuel ih =>
    intro n c h
    rw [natDecimalAux] at h
    by_cases hn : n < 10
    · rw [if_pos hn] at h
      rcases List.mem_singleton.mp h with rfl
      exact getD_digit_mem n
    · rw [if_neg hn] at h
      rcases List.mem_append.mp h with h | h
      · exact ih _ _ h
      · rcases List.mem_singleton.mp h with rfl
        exact getD_digit_mem _

theorem no_dot_natDecimal (n : Nat) : '.' ∉ natDecimal n := by
  intro h
  have := natDecimalAux_mem (n + 1) n _ h
  revert this
  decide

theorem no_dot_intDecimal (i : Int) : '.' ∉ (intDecimal i).data := by
  unfold intDecimal
  by_cases h : i < 0
  · rw [if_pos h]
    intro hm
    rcases List.mem_cons.mp hm with h' | h'
    · exact absurd h' (by decide)
    · exact no_dot_natDecimal _ h'
  · rw [if_neg h]
    exact no_dot_natDecimal _

/-- C7: the generator is a pure function of the AST (two runs on equal
programs yield byte-identical output); the serialised state's keys appear
in the fixed order of the Python dict literal; the serialised entity lists
are the input lists mapped in order, with each entry's identifying name in
place; and integers — in particular coordinate pairs — render without a
decimal point. -/
theorem generator_deterministic_and_ordered :
    (∀ p q : Program, p = q → generate p = generate q) ∧
    (∀ (p : Program) (init : InitSection), p.init_section = some init →
      topKeys (gameState p init) = ["world", "user", "terrain", "furniture",
        "mythics", "items", "monsters", "npcs", "variables", "quests",
        "rules", "end_game", "on_game_start"]) ∧
    (∀ (p : Program) (init : InitSection),
      objGet "furniture" (gameState p init) =
        some (.arr (init.furniture.map furnitureToDict)) ∧
      objGet "mythics" (gameState p init) =
        some (.arr (init.mythics.map mythicToDict)) ∧
      objGet "items" (gameState p init) =
        some (.arr (init.items.map itemToDict)) ∧
      objGet "monsters" (gameState p init) =
        some (.arr (init.monsters.map monsterToDict)) ∧
      objGet "npcs" (gameState p init) =
        some (.arr (init.npcs.map npcToDict))) ∧
    (∀ init : InitSection,
      init.furniture.map (fun f => objGet "name" (furnitureToDict f)) =
        init.furniture.map (fun f => some (.str f.name)) ∧
      init.mythics.map (fun m => objGet "unique_name" (mythicToDict m)) =
        init.mythics.map (fun m => some (.str m.unique_name)) ∧
      init.items.map (fun i => objGet "unique_name" (itemToDict i)) =
        init.items.map (fun i => some (.str i.unique_name)) ∧
      init.monsters.map (fun m => objGet "unique_name" (monsterToDict m)) =
        init.monsters.map (fun m => some (.str m.unique_name)) ∧
      init.npcs.map (fun n => objGet "unique_name" (npcToDict n)) =
        init.npcs.map (fun n => some (.str n.unique_name))) ∧
    (∀ n : Int, '.' ∉ (jsonRender (.int n)).data) ∧
    (∀ x y : Int, '.' ∉ (jsonRender (.arr [.int x, .int y])).data) := by
  refine ⟨fun p q h => by rw [h], fun p init _ => rfl,
    fun p init => ⟨rfl, rfl, rfl, rfl, rfl⟩, fun init => ?_, ?_, ?_⟩
  · refine ⟨?_, ?_, ?_, ?_, ?_⟩
    · have h : ∀ f : FurnitureItem,
          objGet "name" (furnitureToDict f) = some (Json.str f.name) :=
        fun f => rfl
      simp only [h]
    · have h : ∀ m : MythicItem,
          objGet "unique_name" (mythicToDict m) = some (Json.str m.unique_name) :=
        fun m => rfl
      simp only [h]
    · have h : ∀ i : ItemDecl,
          objGet "unique_name" (itemToDict i) = some (Json.str i.unique_name) :=
        fun i => rfl
      simp only [h]
    · have h : ∀ m : MonsterDecl,
          objGet "unique_name" (monsterToDict m) = some (Json.str m.unique_name) :=
        fun m => rfl
      simp only [h]
    · have h : ∀ n : NPCDecl,
          objGet "unique_name" (npcToDict n) = some (Json.str n.unique_name) :=
        fun n => rfl
      simp only [h]
  · intro n
    exact no_dot_intDecimal n
  · intro x y
    have hx := no_dot_intDecimal x
    have hy := no_dot_intDecimal y
    have heq : jsonRender (.arr [.int x, .int y]) =
        (("[" ++ intDecimal x) ++ ", ") ++ (intDecimal y ++ "]") := by
      show ("[" ++ (intDecimal x ++ ", " ++ intDecimal y) ++ "]" : String) = _
      simp [String.ext_iff, String.data_append]
    rw [heq]
    intro hm
    simp only [String.data_append, List.mem_append] at hm
    rcases hm with ((h | h) | h) | (h | h)
    · exact absurd h (by decide)
    · exact hx h
    · exact absurd h (by decide)
    · exact hy h
    · exact absurd h (by decide)

/-- An empty init section, for the C7 witness. -/
def c7Init : InitSection := {}

/-- Witness for C7 at a concrete program. -/
theorem generator_deterministic_and_ordered_witness :
    generate { init_section := some c7Init } =
      generate { init_section := some c7Init } ∧
    topKeys (gameState { init_section := some c7Init } c7Init) =
      ["world", "user", "terrain", "furniture", "mythics", "items",
        "monsters", "npcs", "variables", "quests", "rules", "end_game",
        "on_game_start"] :=
  ⟨generator_deterministic_and_ordered.1 { init_section := some c7Init }
      { init_section := some c7Init } rfl,
    generator_deterministic_and_ordered.2.1 { init_section := some c7Init }
      c7Init rfl⟩

end Dungeon
